import Mathlib

/-!
# zbpack: the Python build planner and the instruction synthesizers

A shallow embedding of the detector functions of the Python planner and of the
metadata assembler `GetMeta` (`internal/python/plan.go`), and of the functions
`GenerateDockerfile` for Python, Java and Node.js (`python.go`, `java.go`,
`node.go`), followed by the properties proved about them.

Modelling conventions.

* Go strings are Lean `String`s; the text algorithms run on `String.data`.
* `afero.Fs` is an interface: the planner only reads a file, asks whether a
  file exists and lists a directory, so a filesystem is the record `Fs` of these
  three observations.  `Src` is that filesystem together with the list of the
  accessor operations performed so far (a counting stub).
* `optional.Option[T]` is `Option T`; `Take` returning an error is `none`.
* A Go function that mutates `*pythonPlanContext` returns the new context next
  to its result.
* A synthesizer returns `Except.ok text` for the Go result `(text, nil)`.
* The constants of `pkg/types` whose values are not among the sources are
  parameters of the synthesizers (`JavaTypes`, `NodeTypes`).
-/

namespace Zbpack

/-! ## Data model -/

/-- The four constants of `types.PythonFramework` used by the planner.  They are
taken to be pairwise different, as the planner compares them with `==`. -/
inductive PythonFramework where
  | PythonFrameworkNone
  | PythonFrameworkDjango
  | PythonFrameworkFlask
  | PythonFrameworkFastapi
  deriving DecidableEq, Repr

open PythonFramework

/-- What `afero.ReadDir` yields for one entry: `Name()` and `IsDir()`. -/
structure DirEntry where
  Name : String
  IsDir : Bool
  deriving DecidableEq, Repr

/-- The source accessor, as far as the planner observes it: `afero.ReadFile`
(`none` when it returns an error), `utils.HasFile` and `afero.ReadDir`
(`none` when it returns an error).  The body of `utils.HasFile` is not among the
sources; it is the observation `exists(path)` of the Source Accessor and is
left arbitrary here, so nothing is assumed about how it relates to the other
two observations. -/
structure Fs where
  ReadFile : String → Option String
  HasFile : String → Bool
  ReadDir : String → Option (List DirEntry)

/-- One operation of the source accessor, with the path it was asked about. -/
inductive Probe where
  | read (path : String)
  | stat (path : String)
  | list (path : String)
  deriving DecidableEq, Repr

/-- A filesystem that records every operation performed on it. -/
structure Src where
  fs : Fs
  calls : List Probe

/-- The call `afero.ReadFile(src, p)`. -/
def Src.ReadFile (s : Src) (p : String) : Option String × Src :=
  (s.fs.ReadFile p, { s with calls := s.calls ++ [Probe.read p] })

/-- The call `utils.HasFile(src, p)`. -/
def Src.HasFile (s : Src) (p : String) : Bool × Src :=
  (s.fs.HasFile p, { s with calls := s.calls ++ [Probe.stat p] })

/-- The call `afero.ReadDir(src, p)`. -/
def Src.ReadDir (s : Src) (p : String) : Option (List DirEntry) × Src :=
  (s.fs.ReadDir p, { s with calls := s.calls ++ [Probe.list p] })

/-- The struct `pythonPlanContext`: the source and one memo slot per fact. -/
structure pythonPlanContext where
  Src : Src
  DependencyFile : Option String
  Framework : Option PythonFramework
  Entry : Option String
  Wsgi : Option String

/-- The context `&pythonPlanContext{Src: src}` over a stub that has recorded
nothing yet: every memo slot is empty. -/
def freshContext (fs : Fs) : pythonPlanContext :=
  { Src := { fs := fs, calls := [] }
    DependencyFile := none
    Framework := none
    Entry := none
    Wsgi := none }

/-- The map `types.PlanMeta` from keys to values. -/
abbrev PlanMeta := String → Option String

/-- The empty map `types.PlanMeta{}`. -/
def PlanMeta.empty : PlanMeta := fun _ => none

/-- The assignment `m[k] = v`. -/
def PlanMeta.set (m : PlanMeta) (k v : String) : PlanMeta :=
  fun key => if key = k then some v else m key

/-- The read `m[k]`, which is the empty string for an absent key. -/
def PlanMeta.get (m : PlanMeta) (k : String) : String :=
  (m k).getD ""

/-! ## Text helpers -/

/-- Substring test on character lists (`strings.Contains`). -/
def containsChars (s sub : List Char) : Bool :=
  match s with
  | [] => sub.isEmpty
  | c :: cs => sub.isPrefixOf (c :: cs) || containsChars cs sub

/-- The call `strings.Contains(s, substr)`. -/
def stringsContains (s substr : String) : Bool :=
  containsChars s.data substr.data

/-- Modelled from the spec: `utils.WeakContains` is not among the sources; the
spec calls it a case-insensitive substring test, so both strings are lowercased
and then tested with the substring test. -/
def WeakContains (s substr : String) : Bool :=
  containsChars (s.data.map Char.toLower) (substr.data.map Char.toLower)

/-- Replace the leftmost occurrence of `old` by `new`. -/
def replaceFirstChars (old new : List Char) : List Char → List Char
  | [] => if old.isEmpty then new else []
  | c :: cs =>
    if old.isPrefixOf (c :: cs) then new ++ (c :: cs).drop old.length
    else c :: replaceFirstChars old new cs

/-- The call `strings.Replace(s, old, new, 1)`. -/
def stringsReplaceOne (s old new : String) : String :=
  String.mk (replaceFirstChars old.data new.data s.data)

/-- The call `strings.Join(xs, sep)`. -/
def stringsJoin (xs : List String) (sep : String) : String :=
  sep.intercalate xs

/-- The class `\w` of Go regular expressions: `[0-9A-Za-z_]`. -/
def isWordChar (c : Char) : Bool :=
  c.isAlphanum || c == '_'

/-- The class `\s` of Go regular expressions: `[\t\n\f\r ]`. -/
def isSpaceChar (c : Char) : Bool :=
  c == '\t' || c == '\n' || c == '\x0c' || c == '\r' || c == ' '

/-- The class `[^)]`. -/
def isNotClose (c : Char) : Bool :=
  c != ')'

/-- One attempt to match `(\w+)\s*=\s*NAME\([^)]*\)` at the head of `s`, giving
the whole match and group 1.  Each repetition is followed by a character outside
its class (`\w+` by a blank or `=`, `\s*` by `=` or the first letter of `NAME`,
`[^)]*` by `)`), so only the longest run can lead to a match and the greedy
choice of the regexp engine is the only one to try. -/
def matchAssignAt (name : List Char) (s : List Char) : Option (List Char × List Char) :=
  let w := s.takeWhile isWordChar
  let r1 := s.dropWhile isWordChar
  if w.isEmpty then none
  else
    let sp1 := r1.takeWhile isSpaceChar
    match r1.dropWhile isSpaceChar with
    | [] => none
    | e :: r2 =>
      if e = '=' then
        let sp2 := r2.takeWhile isSpaceChar
        let r3 := r2.dropWhile isSpaceChar
        let call := name ++ ['(']
        if call.isPrefixOf r3 then
          let r4 := r3.drop call.length
          let args := r4.takeWhile isNotClose
          match r4.dropWhile isNotClose with
          | [] => none
          | p :: _ =>
            if p = ')' then some (w ++ sp1 ++ ['='] ++ sp2 ++ call ++ args ++ [')'], w)
            else none
        else none
      else none

/-- The leftmost match of `(\w+)\s*=\s*NAME\([^)]*\)` in `s`, as
`re.FindStringSubmatch` reports it: the whole match followed by group 1, or the
empty slice when nothing matches. -/
def findAssignChars (name : List Char) : List Char → List String
  | [] => []
  | c :: cs =>
    match matchAssignAt name (c :: cs) with
    | some m => [String.mk m.1, String.mk m.2]
    | none => findAssignChars name cs

/-- The call `regexp.MustCompile(pattern).FindStringSubmatch(content)` for the
pattern with constructor name `name` (`Flask` or `FastAPI`). -/
def FindStringSubmatch (name : String) (content : String) : List String :=
  findAssignChars name.data content.data

/-! ## The detectors -/

/-- DetermineFramework determines the framework of the Python project. -/
def DetermineFramework (ctx : pythonPlanContext) : PythonFramework × pythonPlanContext :=
  match ctx.Framework with
  | some framework => (framework, ctx)
  | none =>
    let rd := ctx.Src.ReadFile "requirements.txt"
    let ctx := { ctx with Src := rd.2 }
    match rd.1 with
    | none => (PythonFrameworkNone, { ctx with Framework := some PythonFrameworkNone })
    | some req =>
      if WeakContains req "django" then
        (PythonFrameworkDjango, { ctx with Framework := some PythonFrameworkDjango })
      else
        let hf := ctx.Src.HasFile "manage.py"
        let ctx := { ctx with Src := hf.2 }
        if hf.1 then
          (PythonFrameworkDjango, { ctx with Framework := some PythonFrameworkDjango })
        else if WeakContains req "flask" then
          (PythonFrameworkFlask, { ctx with Framework := some PythonFrameworkFlask })
        else if WeakContains req "fastapi" then
          (PythonFrameworkFastapi, { ctx with Framework := some PythonFrameworkFastapi })
        else
          (PythonFrameworkNone, { ctx with Framework := some PythonFrameworkNone })

/-- The loop `for _, file := range files { if utils.HasFile(src, file) { ... return } }`:
the first file found, and the source after the checks made. -/
def scanFiles : List String → Src → Option String × Src
  | [], s => (none, s)
  | file :: rest, s =>
    let hf := s.HasFile file
    if hf.1 then (some file, hf.2) else scanFiles rest hf.2

/-- DetermineEntry determines the entry of the Python project. -/
def DetermineEntry (ctx : pythonPlanContext) : String × pythonPlanContext :=
  match ctx.Entry with
  | some entry => (entry, ctx)
  | none =>
    let sc := scanFiles ["main.py", "app.py", "manage.py"] ctx.Src
    match sc.1 with
    | some file => (file, { ctx with Src := sc.2, Entry := some file })
    | none => ("main.py", { ctx with Src := sc.2, Entry := some "main.py" })

/-- DetermineDependencyPolicy determines the file with the dependencies of a
Python project. -/
def DetermineDependencyPolicy (ctx : pythonPlanContext) : String × pythonPlanContext :=
  match ctx.DependencyFile with
  | some depFile => (depFile, ctx)
  | none =>
    let sc := scanFiles ["requirements.txt", "Pipfile", "pyproject.toml"] ctx.Src
    match sc.1 with
    | some file => (file, { ctx with Src := sc.2, DependencyFile := some file })
    | none =>
      ("requirements.txt", { ctx with Src := sc.2, DependencyFile := some "requirements.txt" })

/-- The inner loop of `HasDependency`: some dependency occurs in the file. -/
def anyDependencyIn (file : String) : List String → Bool
  | [] => false
  | dependency :: rest =>
    if stringsContains file dependency then true else anyDependencyIn file rest

/-- The outer loop of `HasDependency` over the files still to read. -/
def scanDependencyFiles (dependencies : List String) : List String → Src → Bool × Src
  | [], s => (false, s)
  | file :: rest, s =>
    let rd := s.ReadFile file
    match rd.1 with
    | none => scanDependencyFiles dependencies rest rd.2
    | some content =>
      if anyDependencyIn content dependencies then (true, rd.2)
      else scanDependencyFiles dependencies rest rd.2

/-- HasDependency checks if a python project has the one of the dependencies. -/
def HasDependency (src : Src) (dependencies : List String) : Bool × Src :=
  scanDependencyFiles dependencies
    ["requirements.txt", "Pipfile", "pyproject.toml", "Pipfile.lock", "poetry.lock"] src

/-- The loop of `DetermineWsgi` over the root entries: the reference `<dir>.wsgi`
of the first directory holding `wsgi.py`, and the source after the checks made. -/
def scanWsgiDirs : List DirEntry → Src → Option String × Src
  | [], s => (none, s)
  | d :: rest, s =>
    if d.IsDir then
      let hf := s.HasFile (d.Name ++ "/wsgi.py")
      if hf.1 then (some (d.Name ++ ".wsgi"), hf.2) else scanWsgiDirs rest hf.2
    else scanWsgiDirs rest s

/-- The Flask branch and the FastAPI branch of `DetermineWsgi`, which differ
only in the constructor name of the pattern. -/
def wsgiFromEntry (name : String) (ctx : pythonPlanContext) : String × pythonPlanContext :=
  let en := DetermineEntry ctx
  let entryFile := en.1
  let ctx := en.2
  let rd := ctx.Src.ReadFile entryFile
  let ctx := { ctx with Src := rd.2 }
  match rd.1 with
  | none => ("", ctx)
  | some content =>
    let found := FindStringSubmatch name content
    if found.length > 1 then
      let entryWithoutExt := stringsReplaceOne entryFile ".py" ""
      let ref := entryWithoutExt ++ ":" ++ found.getD 1 ""
      (ref, { ctx with Wsgi := some ref })
    else ("", ctx)

/-- DetermineWsgi determines the WSGI application filepath of a Python project. -/
def DetermineWsgi (ctx : pythonPlanContext) : String × pythonPlanContext :=
  let fr := DetermineFramework ctx
  let framework := fr.1
  let ctx := fr.2
  if framework = PythonFrameworkDjango then
    let rd := ctx.Src.ReadDir "/"
    let ctx := { ctx with Src := rd.2 }
    match rd.1 with
    | none => ("", ctx)
    | some dir =>
      let sc := scanWsgiDirs dir ctx.Src
      let ctx := { ctx with Src := sc.2 }
      match sc.1 with
      | some ref => (ref, { ctx with Wsgi := some ref })
      | none => ("", ctx)
  else if framework = PythonFrameworkFlask then
    wsgiFromEntry "Flask" ctx
  else if framework = PythonFrameworkFastapi then
    wsgiFromEntry "FastAPI" ctx
  else ("", ctx)

/-! ## The metadata assembler -/

/-- The function `determineInstallCmd`. -/
def determineInstallCmd (ctx : pythonPlanContext) : String × pythonPlanContext :=
  let dp := DetermineDependencyPolicy ctx
  let depPolicy := dp.1
  let ws := DetermineWsgi dp.2
  let wsgi := ws.1
  let fr := DetermineFramework ws.2
  let framwork := fr.1
  let ctx := fr.2
  if depPolicy = "requirements.txt" then
    if wsgi ≠ "" then ("pip install -r requirements.txt && pip install gunicorn", ctx)
    else if framwork = PythonFrameworkFastapi then
      ("pip install -r requirements.txt && pip install uvicorn", ctx)
    else ("pip install -r requirements.txt", ctx)
  else if depPolicy = "Pipfile" then
    if wsgi ≠ "" then ("pipenv install && pipenv install gunicorn", ctx)
    else ("pipenv install", ctx)
  else if depPolicy = "pyproject.toml" then
    if wsgi ≠ "" then ("poetry install && poetry install gunicorn", ctx)
    else ("poetry install", ctx)
  else
    if wsgi ≠ "" then ("pip install gunicorn", ctx)
    else ("echo \"skip install\"", ctx)

/-- The function `determineAptDependencies`. -/
def determineAptDependencies (ctx : pythonPlanContext) : List String × pythonPlanContext :=
  let my := HasDependency ctx.Src ["mysqlclient"]
  let ctx := { ctx with Src := my.2 }
  if my.1 then (["libmariadb-dev", "build-essential"], ctx)
  else
    let pg := HasDependency ctx.Src ["psycopg2"]
    let ctx := { ctx with Src := pg.2 }
    if pg.1 then (["libpq-dev"], ctx)
    else ([], ctx)

/-- The function `determineStartCmd`. -/
def determineStartCmd (ctx : pythonPlanContext) : String × pythonPlanContext :=
  let ws := DetermineWsgi ctx
  let wsgi := ws.1
  let fr := DetermineFramework ws.2
  let framework := fr.1
  let ctx := fr.2
  if wsgi ≠ "" then
    if framework = PythonFrameworkFastapi then
      ("uvicorn " ++ wsgi ++ " --host 0.0.0.0 --port 8080", ctx)
    else ("gunicorn --bind :8080 " ++ wsgi, ctx)
  else
    let en := DetermineEntry ctx
    ("python " ++ en.1, en.2)

/-- GetMetaOptions is the options for GetMeta. -/
structure GetMetaOptions where
  Src : Fs

/-- GetMeta returns the metadata of a Python project.  The conversion
`string(framework)` depends on the values of the constants of
`types.PythonFramework`, which are not among the sources: it is the parameter
`frameworkName`. -/
def GetMeta (frameworkName : PythonFramework → String) (opt : GetMetaOptions) : PlanMeta :=
  let ctx := freshContext opt.Src
  let m := PlanMeta.empty
  let fr := DetermineFramework ctx
  let framework := fr.1
  let m := if framework ≠ PythonFrameworkNone then m.set "framework" (frameworkName framework) else m
  let ic := determineInstallCmd fr.2
  let m := m.set "install" ic.1
  let sc := determineStartCmd ic.2
  let m := m.set "start" sc.1
  let ad := determineAptDependencies sc.2
  let aptDeps := ad.1
  if aptDeps.length > 0 then m.set "apt-deps" (stringsJoin aptDeps " ") else m

/-! ## Scenario filesystems -/

/-- A project whose root holds the given regular files (name and content), in
which nothing else exists and the root lists those files. -/
def Fs.ofFiles (files : List (String × String)) : Fs :=
  { ReadFile := fun p => (files.find? (fun f => f.1 == p)).map (fun f => f.2)
    HasFile := fun p => files.any (fun f => f.1 == p)
    ReadDir := fun p => if p = "/" then some (files.map (fun f => ⟨f.1, false⟩)) else none }

/-- Scenario A: `requirements.txt` holding `Flask==2.0` and `app.py` holding
`app = Flask(__name__)`. -/
def scenarioA : Fs :=
  Fs.ofFiles [("requirements.txt", "Flask==2.0"), ("app.py", "app = Flask(__name__)")]

/-- Scenario B: a project in which no file exists. -/
def scenarioB : Fs :=
  Fs.ofFiles []

/-- A project whose `requirements.txt` names both Django and Flask. -/
def djangoFlaskProject : Fs :=
  Fs.ofFiles [("requirements.txt", "Django>=4.0\nflask")]

/-- A project without `requirements.txt` that nevertheless holds `manage.py`, an
entry file with a Flask assignment and a directory with `wsgi.py`. -/
def unreadableRequirementsProject : Fs :=
  { ReadFile := fun p =>
      if p = "app.py" then some "app = Flask(__name__)"
      else if p = "manage.py" then some "import django"
      else if p = "mysite/wsgi.py" then some "application = get_wsgi_application()"
      else none
    HasFile := fun p => p == "app.py" || p == "manage.py" || p == "mysite/wsgi.py"
    ReadDir := fun p =>
      if p = "/" then some [⟨"app.py", false⟩, ⟨"manage.py", false⟩, ⟨"mysite", true⟩]
      else none }

/-- A Django project: the root lists the directories `docs` (without `wsgi.py`)
and `mysite` (with `wsgi.py`) next to two regular files. -/
def djangoProject : Fs :=
  { ReadFile := fun p =>
      if p = "requirements.txt" then some "Django==4.2"
      else if p = "manage.py" then some "import django"
      else if p = "mysite/wsgi.py" then some "application = get_wsgi_application()"
      else none
    HasFile := fun p =>
      p == "requirements.txt" || p == "manage.py" || p == "mysite/wsgi.py"
    ReadDir := fun p =>
      if p = "/" then
        some [⟨"docs", true⟩, ⟨"manage.py", false⟩, ⟨"mysite", true⟩,
          ⟨"requirements.txt", false⟩]
      else none }

/-- A project whose only file is `manage.py`. -/
def manageOnlyProject : Fs :=
  Fs.ofFiles [("manage.py", "import django")]

/-- A context over `fs` whose slot `DependencyFile` already holds `file`, as
`DetermineDependencyPolicy` finds it when the slot was filled before; every
other slot is empty. -/
def contextWithPolicy (fs : Fs) (file : String) : pythonPlanContext :=
  { freshContext fs with DependencyFile := some file }

/-! ## Reference functions

What each detector is expected to return, written as a function of the
filesystem alone, and the two decision tables of the metadata assembler. -/

/-- The ordered first-match-wins classification of the framework. -/
def frameworkRef (fs : Fs) : PythonFramework :=
  match fs.ReadFile "requirements.txt" with
  | none => PythonFrameworkNone
  | some req =>
    if WeakContains req "django" then PythonFrameworkDjango
    else if fs.HasFile "manage.py" then PythonFrameworkDjango
    else if WeakContains req "flask" then PythonFrameworkFlask
    else if WeakContains req "fastapi" then PythonFrameworkFastapi
    else PythonFrameworkNone

/-- The first file of `files` that exists, or `dflt` when none does. -/
def firstExisting (fs : Fs) (files : List String) (dflt : String) : String :=
  (files.find? fs.HasFile).getD dflt

/-- The entry file: first of `main.py`, `app.py`, `manage.py`, default `main.py`. -/
def entryRef (fs : Fs) : String :=
  firstExisting fs ["main.py", "app.py", "manage.py"] "main.py"

/-- The dependency policy: first of `requirements.txt`, `Pipfile`,
`pyproject.toml`, default `requirements.txt`. -/
def policyRef (fs : Fs) : String :=
  firstExisting fs ["requirements.txt", "Pipfile", "pyproject.toml"] "requirements.txt"

/-- The Django reference: `<dir>.wsgi` for the first root entry, in listing
order, that is a directory holding `wsgi.py`; empty when there is none or the
root cannot be listed. -/
def wsgiDjangoRef (fs : Fs) : String :=
  match fs.ReadDir "/" with
  | none => ""
  | some entries =>
    match entries.find? (fun d => d.IsDir && fs.HasFile (d.Name ++ "/wsgi.py")) with
    | some d => d.Name ++ ".wsgi"
    | none => ""

/-- The Flask or FastAPI reference: `<entry without .py>:<identifier>` for the
first assignment `<identifier> = NAME(...)` of the entry file; empty when the
file cannot be read or holds no such assignment. -/
def wsgiEntryRef (name : String) (fs : Fs) : String :=
  match fs.ReadFile (entryRef fs) with
  | none => ""
  | some content =>
    let found := FindStringSubmatch name content
    if found.length > 1 then
      stringsReplaceOne (entryRef fs) ".py" "" ++ ":" ++ found.getD 1 ""
    else ""

/-- The web-application reference, by framework. -/
def wsgiRef (fs : Fs) : String :=
  match frameworkRef fs with
  | PythonFrameworkDjango => wsgiDjangoRef fs
  | PythonFrameworkFlask => wsgiEntryRef "Flask" fs
  | PythonFrameworkFastapi => wsgiEntryRef "FastAPI" fs
  | PythonFrameworkNone => ""

/-- The install decision table, keyed by dependency policy, presence of the
web-application reference and framework. -/
def installTable (policy ref : String) (framework : PythonFramework) : String :=
  if policy = "requirements.txt" then
    if ref ≠ "" then "pip install -r requirements.txt && pip install gunicorn"
    else if framework = PythonFrameworkFastapi then
      "pip install -r requirements.txt && pip install uvicorn"
    else "pip install -r requirements.txt"
  else if policy = "Pipfile" then
    if ref ≠ "" then "pipenv install && pipenv install gunicorn" else "pipenv install"
  else if policy = "pyproject.toml" then
    if ref ≠ "" then "poetry install && poetry install gunicorn" else "poetry install"
  else
    if ref ≠ "" then "pip install gunicorn" else "echo \"skip install\""

/-- The start decision table, keyed by the web-application reference, the
framework and the entry file. -/
def startTable (ref : String) (framework : PythonFramework) (entry : String) : String :=
  if ref ≠ "" then
    if framework = PythonFrameworkFastapi then "uvicorn " ++ ref ++ " --host 0.0.0.0 --port 8080"
    else "gunicorn --bind :8080 " ++ ref
  else "python " ++ entry

/-- A context over `fs` whose filled memo slots hold the values the detectors
compute on `fs`.  The fresh context is coherent and every detector keeps a
context coherent.  The slot `Wsgi` is written but never read, so it carries no
condition. -/
def Coherent (fs : Fs) (ctx : pythonPlanContext) : Prop :=
  ctx.Src.fs = fs ∧
  (∀ v, ctx.Framework = some v → v = frameworkRef fs) ∧
  (∀ v, ctx.Entry = some v → v = entryRef fs) ∧
  (∀ v, ctx.DependencyFile = some v → v = policyRef fs)

/-! ## The instruction synthesizers (`python.go`, `java.go`, `node.go`) -/

/-- GenerateDockerfile generates the Dockerfile for Python projects.  The error
of the Go signature is always `nil`: the result is `Except.ok`. -/
def python.GenerateDockerfile (m : PlanMeta) : Except String String :=
  let installCmd := m.get "install"
  let startCmd := m.get "start"
  let aptDeps := m.get "apt-deps"
  let dockerfile := "FROM docker.io/library/python:3.8.2-slim-buster\n"
  let dockerfile := dockerfile ++
    ("WORKDIR /app\nRUN apt-get update\nRUN apt-get install " ++ aptDeps ++
      " gcc -y\nRUN rm -rf /var/lib/apt/lists/*\nCOPY . .\nRUN " ++ installCmd ++
      "\nEXPOSE 8080\nCMD " ++ startCmd)
  Except.ok dockerfile

/-- The constants of `pkg/types` that `java.go` converts with `string(...)`.
Their values are not among the sources.  `JavaProjectTypeMaven` and
`JavaProjectTypeGradle` label two cases of one `switch`, so the Go compiler
requires them to differ. -/
structure JavaTypes where
  JavaProjectTypeMaven : String
  JavaProjectTypeGradle : String
  JavaFrameworkSpringBoot : String

/-- GenerateDockerfile generates the Dockerfile for Java projects. -/
def java.GenerateDockerfile (T : JavaTypes) (m : PlanMeta) : Except String String :=
  let projectType := m.get "type"
  let framework := m.get "framework"
  let jdkVersion := m.get "jdk"
  let isMaven := decide (projectType = T.JavaProjectTypeMaven)
  let isGradle := decide (projectType = T.JavaProjectTypeGradle)
  let isSpringBoot := decide (framework = T.JavaFrameworkSpringBoot)
  let baseImage := "docker.io/library/openjdk:" ++ jdkVersion ++ "-jdk-slim"
  let dockerfile := ""
  let dockerfile :=
    if projectType = T.JavaProjectTypeMaven then
      dockerfile ++
        ("FROM " ++ baseImage ++
          "\nRUN apt-get update && apt-get install -y maven\nWORKDIR /src\nCOPY . .\nRUN mvn clean dependency:list install\n")
    else if projectType = T.JavaProjectTypeGradle then
      let baseImage := "docker.io/library/gradle:8.1.0-jdk" ++ jdkVersion ++ "-alpine"
      dockerfile ++ ("FROM " ++ baseImage ++ "\nWORKDIR /src\nCOPY . .\nRUN gradle build\n")
    else dockerfile
  let startCmd := ""
  let startCmd := if isMaven then "CMD java -jar target/*.jar" else startCmd
  let startCmd := if isGradle then "CMD java -jar build/libs/*.jar" else startCmd
  let startCmd :=
    if isMaven && isSpringBoot then "CMD java -Dserver.port=$PORT -jar target/*.jar"
    else startCmd
  let startCmd :=
    if isGradle && isSpringBoot then "CMD java -Dserver.port=$PORT -jar build/libs/*.jar"
    else startCmd
  let dockerfile := dockerfile ++ startCmd
  Except.ok dockerfile

/-- The constants of `pkg/types` that `node.go` converts with `string(...)`.
Their values are not among the sources. -/
structure NodeTypes where
  NodePackageManagerNpm : String
  NodePackageManagerYarn : String
  NodePackageManagerPnpm : String
  NodeProjectFrameworkVite : String
  NodeProjectFrameworkUmi : String
  NodeProjectFrameworkCreateReactApp : String
  NodeProjectFrameworkVueCli : String
  NodeProjectFrameworkHexo : String
  NodeProjectFrameworkVitepress : String
  NodeProjectFrameworkAstro : String

/-- The slice `s[n:]` by byte offset: `none` when `n` exceeds the length (a
run-time panic in Go) or falls inside a multi-byte character (a string that is
not valid UTF-8, which `String` cannot hold). -/
def dropBytes : List Char → Nat → Option (List Char)
  | cs, 0 => some cs
  | [], _ + 1 => none
  | c :: cs, n + 1 => if c.utf8Size ≤ n + 1 then dropBytes cs (n + 1 - c.utf8Size) else none

/-- The slice expression `s[n:]`. -/
def sliceFrom (s : String) (n : Nat) : Option String :=
  (dropBytes s.data n).map String.mk

/-- Lines 11 to 22 of `node.go`: the install instruction. -/
def nodejs.installCmd (T : NodeTypes) (m : PlanMeta) : String :=
  let pkgManager := m.get "packageManager"
  let installCmd := "RUN yarn"
  if pkgManager = T.NodePackageManagerNpm then "RUN npm install"
  else if pkgManager = T.NodePackageManagerYarn then "RUN yarn install"
  else if pkgManager = T.NodePackageManagerPnpm then
    "\nRUN npm install -g pnpm\nRUN pnpm install\n"
  else installCmd

/-- Lines 24 to 35 of `node.go`: the build instruction. -/
def nodejs.buildCmd (T : NodeTypes) (m : PlanMeta) : String :=
  let pkgManager := m.get "packageManager"
  let buildCmd := "RUN yarn " ++ m.get "buildCommand"
  let buildCmd :=
    if pkgManager = T.NodePackageManagerYarn then "RUN yarn " ++ m.get "buildCommand"
    else if pkgManager = T.NodePackageManagerPnpm then "RUN pnpm run " ++ m.get "buildCommand"
    else if pkgManager = T.NodePackageManagerNpm then "RUN npm run " ++ m.get "buildCommand"
    else buildCmd
  if m.get "buildCommand" = "" then "" else buildCmd

/-- Lines 37 to 54 of `node.go`: the start instruction before the puppeteer
step. -/
def nodejs.startCmd (T : NodeTypes) (m : PlanMeta) : String :=
  let pkgManager := m.get "packageManager"
  let startCmd := "CMD yarn " ++ m.get "startCommand"
  let startCmd :=
    if pkgManager = T.NodePackageManagerYarn then "CMD yarn " ++ m.get "startCommand"
    else if pkgManager = T.NodePackageManagerPnpm then "CMD pnpm " ++ m.get "startCommand"
    else if pkgManager = T.NodePackageManagerNpm then "CMD npm run " ++ m.get "startCommand"
    else startCmd
  if m.get "startCommand" = "" then
    if m.get "mainFile" ≠ "" then "CMD node " ++ m.get "mainFile"
    else if m.get "framework" = "nuxt.js" then "CMD node .output/server/index.mjs"
    else "CMD node index.js"
  else startCmd

/-- The slice `staticFrameworks` of `node.go`. -/
def nodejs.staticFrameworks (T : NodeTypes) : List String :=
  [T.NodeProjectFrameworkVite, T.NodeProjectFrameworkUmi,
    T.NodeProjectFrameworkCreateReactApp, T.NodeProjectFrameworkVueCli,
    T.NodeProjectFrameworkHexo, T.NodeProjectFrameworkVitepress,
    T.NodeProjectFrameworkAstro]

/-- The map `defaultStaticOutputDirs` of `node.go`, read at key `f`; an absent
key reads as the empty string.  Go rejects a map literal with two equal constant
keys, so the order of the entries does not matter. -/
def nodejs.defaultStaticOutputDirs (T : NodeTypes) (f : String) : String :=
  ([(T.NodeProjectFrameworkVite, "dist"), (T.NodeProjectFrameworkUmi, "dist"),
    (T.NodeProjectFrameworkVueCli, "dist"), (T.NodeProjectFrameworkCreateReactApp, "build"),
    (T.NodeProjectFrameworkHexo, "public"),
    (T.NodeProjectFrameworkVitepress, "docs/.vitepress/dist"),
    (T.NodeProjectFrameworkAstro, "dist")].lookup f).getD ""

/-- The loop `for _, f := range staticFrameworks` of `node.go` over the
frameworks still to visit, on the pair `(isStaticOutput, staticOutputDir)`. -/
def nodejs.scanStaticFrameworks (T : NodeTypes) (framework : String) :
    List String → Bool × String → Bool × String
  | [], st => st
  | f :: rest, st =>
    if framework = f then
      nodejs.scanStaticFrameworks T framework rest
        (true, if st.2 = "" then nodejs.defaultStaticOutputDirs T f else st.2)
    else nodejs.scanStaticFrameworks T framework rest st

/-- The function `GenerateDockerfile` of `node.go`.  The slice `startCmd[4:]`
can fail at run time: that outcome is `Except.error`. -/
def nodejs.GenerateDockerfile (T : NodeTypes) (m : PlanMeta) : Except String String :=
  let installCmd := nodejs.installCmd T m
  let buildCmd := nodejs.buildCmd T m
  let startCmd := nodejs.startCmd T m
  let framework := m.get "framework"
  let nodeVersion := m.get "nodeVersion"
  let isStaticOutput := false
  let staticOutputDir := ""
  let isSinglePageApp := true
  let isSinglePageApp :=
    if framework = T.NodeProjectFrameworkHexo ∨ framework = T.NodeProjectFrameworkVitepress ∨
        framework = T.NodeProjectFrameworkAstro then false
    else isSinglePageApp
  let st := nodejs.scanStaticFrameworks T framework (nodejs.staticFrameworks T)
    (isStaticOutput, staticOutputDir)
  let isStaticOutput := st.1
  let staticOutputDir := st.2
  if isStaticOutput then
    if isSinglePageApp then
      Except.ok ("FROM node:" ++ nodeVersion ++ " as build\nWORKDIR /src\nCOPY . .\n" ++
        installCmd ++ "\n" ++ buildCmd ++ "\n\nFROM nginx:alpine\nCOPY --from=build /src/" ++
        staticOutputDir ++
        " /static\nRUN echo \"server \x7b listen 8080; root /static; location / \x7btry_files \\$uri /index.html; \x7d\x7d\"> /etc/nginx/conf.d/default.conf\nEXPOSE 8080\n")
    else
      Except.ok ("FROM node:" ++ nodeVersion ++ " as build\nWORKDIR /src\nCOPY . .\n" ++
        installCmd ++ "\n" ++ buildCmd ++ "\n\nFROM nginx:alpine\nCOPY --from=build /src/" ++
        staticOutputDir ++
        " /usr/share/nginx/html\nRUN echo \"server \x7b listen 8080; root /usr/share/nginx/html; \x7d\"> /etc/nginx/conf.d/default.conf\nEXPOSE 8080\n")
  else
    let puppeteerCmd := ""
    let needPuppeteer := decide (m.get "needPuppeteer" = "true")
    if needPuppeteer then
      let puppeteerCmd := "\nRUN apt-get update && apt-get install -y libnss3 libatk1.0-0 libatk-bridge2.0-0 libcups2 libgbm1 libasound2 libpangocairo-1.0-0 libxss1 libgtk-3-0 libxshmfence1 libglu1\nRUN groupadd -r puppeteer \nRUN useradd -r -g puppeteer -G audio,video puppeteer\nRUN chown -R puppeteer:puppeteer /src\nRUN mkdir /home/puppeteer && chown -R puppeteer:puppeteer /home/puppeteer\nUSER puppeteer\n"
      match sliceFrom startCmd 4 with
      | none => Except.error "slice bounds out of range"
      | some rest =>
        let startCmd := "CMD " ++ "node node_modules/puppeteer/install.js && " ++ rest
        Except.ok ("FROM node:" ++ nodeVersion ++ " \nENV PORT=8080\nWORKDIR /src\nCOPY . .\n" ++
          installCmd ++ "\n" ++ buildCmd ++ "\n" ++ puppeteerCmd ++ "\nEXPOSE 8080\n" ++ startCmd)
    else
      Except.ok ("FROM node:" ++ nodeVersion ++ " \nENV PORT=8080\nWORKDIR /src\nCOPY . .\n" ++
        installCmd ++ "\n" ++ buildCmd ++ "\n" ++ puppeteerCmd ++ "\nEXPOSE 8080\n" ++ startCmd)

/-- The values that the constants of `pkg/types` are given in the examples:
the names under which the spec and the metadata keys refer to them. -/
def sampleNodeTypes : NodeTypes :=
  { NodePackageManagerNpm := "npm"
    NodePackageManagerYarn := "yarn"
    NodePackageManagerPnpm := "pnpm"
    NodeProjectFrameworkVite := "vite"
    NodeProjectFrameworkUmi := "umi"
    NodeProjectFrameworkCreateReactApp := "create-react-app"
    NodeProjectFrameworkVueCli := "vue-cli"
    NodeProjectFrameworkHexo := "hexo"
    NodeProjectFrameworkVitepress := "vitepress"
    NodeProjectFrameworkAstro := "astro" }

/-- The values used for the Java constants in the examples. -/
def sampleJavaTypes : JavaTypes :=
  { JavaProjectTypeMaven := "maven"
    JavaProjectTypeGradle := "gradle"
    JavaFrameworkSpringBoot := "springboot" }

/-- A metadata map built from a list of assignments, the first one first. -/
def PlanMeta.ofList (kvs : List (String × String)) : PlanMeta :=
  kvs.foldl (fun m kv => m.set kv.1 kv.2) PlanMeta.empty

/-- The text after the last newline of `text`: its final line. -/
def finalLine (text : String) : String :=
  String.mk (text.data.reverse.takeWhile (fun c => c != '\n')).reverse

/-- A project whose `requirements.txt` names both `mysqlclient` and `psycopg2`. -/
def bothDatabasesProject : Fs :=
  Fs.ofFiles [("requirements.txt", "mysqlclient==2.1\npsycopg2==2.9")]

/-- A project whose only manifest is a `Pipfile` naming `psycopg2`. -/
def pipfilePostgresProject : Fs :=
  Fs.ofFiles [("Pipfile", "[packages]\npsycopg2 = \"*\"")]

/-! ## Reference texts of the Node.js synthesizer -/

/-- The two-stage text with the single-page server block: the build stage, then
nginx serving `/static` with the `try_files` fallback to `/index.html`. -/
def nodeSinglePageText (nodeVersion installCmd buildCmd staticOutputDir : String) : String :=
  "FROM node:" ++ nodeVersion ++ " as build\nWORKDIR /src\nCOPY . .\n" ++ installCmd ++ "\n" ++
    buildCmd ++ "\n\nFROM nginx:alpine\nCOPY --from=build /src/" ++ staticOutputDir ++
    " /static\nRUN echo \"server \x7b listen 8080; root /static; location / \x7btry_files \\$uri /index.html; \x7d\x7d\"> /etc/nginx/conf.d/default.conf\nEXPOSE 8080\n"

/-- The two-stage text with the multi-page server block: the build stage, then
nginx serving `/usr/share/nginx/html` without a fallback. -/
def nodeMultiPageText (nodeVersion installCmd buildCmd staticOutputDir : String) : String :=
  "FROM node:" ++ nodeVersion ++ " as build\nWORKDIR /src\nCOPY . .\n" ++ installCmd ++ "\n" ++
    buildCmd ++ "\n\nFROM nginx:alpine\nCOPY --from=build /src/" ++ staticOutputDir ++
    " /usr/share/nginx/html\nRUN echo \"server \x7b listen 8080; root /usr/share/nginx/html; \x7d\"> /etc/nginx/conf.d/default.conf\nEXPOSE 8080\n"

/-- The block of instructions inserted when puppeteer is needed. -/
def puppeteerBlock : String :=
  "\nRUN apt-get update && apt-get install -y libnss3 libatk1.0-0 libatk-bridge2.0-0 libcups2 libgbm1 libasound2 libpangocairo-1.0-0 libxss1 libgtk-3-0 libxshmfence1 libglu1\nRUN groupadd -r puppeteer \nRUN useradd -r -g puppeteer -G audio,video puppeteer\nRUN chown -R puppeteer:puppeteer /src\nRUN mkdir /home/puppeteer && chown -R puppeteer:puppeteer /home/puppeteer\nUSER puppeteer\n"

/-- The single-stage text: the node image with `ENV PORT=8080`, the install and
build instructions, the puppeteer block (possibly empty) and the start
instruction as the last part. -/
def nodeServerText (nodeVersion installCmd buildCmd puppeteerCmd startCmd : String) : String :=
  "FROM node:" ++ nodeVersion ++ " \nENV PORT=8080\nWORKDIR /src\nCOPY . .\n" ++ installCmd ++
    "\n" ++ buildCmd ++ "\n" ++ puppeteerCmd ++ "\nEXPOSE 8080\n" ++ startCmd

/-- The final line of a synthesizer result, when there is one. -/
def finalInstruction (r : Except String String) : Option String :=
  match r with
  | Except.ok text => some (finalLine text)
  | Except.error _ => none

/-- The metadata of scenario C with puppeteer needed. -/
def puppeteerMeta : PlanMeta :=
  PlanMeta.ofList [("packageManager", "npm"), ("needPuppeteer", "true")]

/-- The metadata of scenario C: npm and nothing else. -/
def scenarioCMeta : PlanMeta :=
  PlanMeta.ofList [("packageManager", "npm")]

/-- A filesystem in which every file that can be read also exists for
`utils.HasFile`. -/
def Fs.ReadableExists (fs : Fs) : Prop :=
  ∀ p content, fs.ReadFile p = some content → fs.HasFile p = true

/-- A FastAPI project: `requirements.txt` naming fastapi and `main.py` with the
assignment `app = FastAPI()`. -/
def fastapiProject : Fs :=
  Fs.ofFiles [("requirements.txt", "fastapi==0.100"), ("main.py", "app = FastAPI()")]

/-- A FastAPI project whose entry file holds no application assignment. -/
def fastapiBareProject : Fs :=
  Fs.ofFiles [("requirements.txt", "fastapi==0.100"), ("main.py", "import fastapi")]

/-! ## The detectors compute the reference functions -/

theorem coherent_fresh (fs : Fs) : Coherent fs (freshContext fs) := by
  simp [Coherent, freshContext]

theorem DetermineFramework_coherent (fs : Fs) (ctx : pythonPlanContext) (h : Coherent fs ctx) :
    (DetermineFramework ctx).1 = frameworkRef fs ∧ Coherent fs (DetermineFramework ctx).2 := by
  obtain ⟨hfs, hfw, hen, hdp⟩ := h
  unfold DetermineFramework
  cases hF : ctx.Framework with
  | some v => 
    simp only
    exact ⟨hfw v hF, hfs, hfw, hen, hdp⟩
  | none =>
    simp only [Src.ReadFile, Src.HasFile, hfs]
    unfold frameworkRef
    cases hR : fs.ReadFile "requirements.txt" with
    | none => simp [Coherent, hfs, frameworkRef, hR]; exact ⟨hen, hdp⟩
    | some req =>
      simp only
      split_ifs <;> simp [Coherent, frameworkRef, hR, hfs, *] <;> exact ⟨hen, hdp⟩

theorem scanFiles_fst (files : List String) (s : Src) :
    (scanFiles files s).1 = files.find? s.fs.HasFile ∧ (scanFiles files s).2.fs = s.fs := by
  induction files generalizing s with
  | nil => simp [scanFiles]
  | cons f rest ih =>
    simp only [scanFiles, Src.HasFile, List.find?]
    cases hf : s.fs.HasFile f with
    | true => simp
    | false => 
      simp
      exact ih _

theorem DetermineEntry_coherent (fs : Fs) (ctx : pythonPlanContext) (h : Coherent fs ctx) :
    (DetermineEntry ctx).1 = entryRef fs ∧ Coherent fs (DetermineEntry ctx).2 := by
  obtain ⟨hfs, hfw, hen, hdp⟩ := h
  unfold DetermineEntry
  cases hE : ctx.Entry with
  | some v => exact ⟨hen v hE, hfs, hfw, hen, hdp⟩
  | none =>
    have hs := scanFiles_fst ["main.py", "app.py", "manage.py"] ctx.Src
    rw [hfs] at hs
    simp only
    cases hsc : (scanFiles ["main.py", "app.py", "manage.py"] ctx.Src).1 with
    | some file =>
      simp only
      have : entryRef fs = file := by simp [entryRef, firstExisting, ← hs.1, hsc]
      simp [Coherent, hs.2, this]; exact ⟨hfw, hdp⟩
    | none =>
      simp only
      have : entryRef fs = "main.py" := by simp [entryRef, firstExisting, ← hs.1, hsc]
      simp [Coherent, hs.2, this]; exact ⟨hfw, hdp⟩


theorem DetermineDependencyPolicy_coherent (fs : Fs) (ctx : pythonPlanContext)
    (h : Coherent fs ctx) :
    (DetermineDependencyPolicy ctx).1 = policyRef fs ∧
      Coherent fs (DetermineDependencyPolicy ctx).2 := by
  obtain ⟨hfs, hfw, hen, hdp⟩ := h
  unfold DetermineDependencyPolicy
  cases hD : ctx.DependencyFile with
  | some v => exact ⟨hdp v hD, hfs, hfw, hen, hdp⟩
  | none =>
    have hs := scanFiles_fst ["requirements.txt", "Pipfile", "pyproject.toml"] ctx.Src
    rw [hfs] at hs
    simp only
    cases hsc : (scanFiles ["requirements.txt", "Pipfile", "pyproject.toml"] ctx.Src).1 with
    | some file =>
      simp only
      have : policyRef fs = file := by simp [policyRef, firstExisting, ← hs.1, hsc]
      simp [Coherent, hs.2, this]; exact ⟨hfw, hen⟩
    | none =>
      simp only
      have : policyRef fs = "requirements.txt" := by
        simp [policyRef, firstExisting, ← hs.1, hsc]
      simp [Coherent, hs.2, this]; exact ⟨hfw, hen⟩

theorem scanWsgiDirs_fst (dir : List DirEntry) (s : Src) :
    (scanWsgiDirs dir s).1 =
        (dir.find? (fun d => d.IsDir && s.fs.HasFile (d.Name ++ "/wsgi.py"))).map
          (fun d => d.Name ++ ".wsgi") ∧
      (scanWsgiDirs dir s).2.fs = s.fs := by
  induction dir generalizing s with
  | nil => simp [scanWsgiDirs]
  | cons d rest ih =>
    simp only [scanWsgiDirs, Src.HasFile, List.find?]
    cases hd : d.IsDir with
    | false => simpa using ih s
    | true =>
      cases hf : s.fs.HasFile (d.Name ++ "/wsgi.py") with
      | true => simp
      | false => simpa using ih _

theorem wsgiFromEntry_coherent (name : String) (fs : Fs) (ctx : pythonPlanContext)
    (h : Coherent fs ctx) :
    (wsgiFromEntry name ctx).1 = wsgiEntryRef name fs ∧
      Coherent fs (wsgiFromEntry name ctx).2 := by
  obtain ⟨he, hc⟩ := DetermineEntry_coherent fs ctx h
  obtain ⟨hfs, hfw, hen, hdp⟩ := hc
  unfold wsgiFromEntry wsgiEntryRef
  simp only [he, Src.ReadFile, hfs]
  cases hR : fs.ReadFile (entryRef fs) with
  | none => exact ⟨rfl, rfl, hfw, hen, hdp⟩
  | some content =>
    simp only
    split_ifs
    · exact ⟨rfl, rfl, hfw, hen, hdp⟩
    · exact ⟨rfl, rfl, hfw, hen, hdp⟩

theorem DetermineWsgi_coherent (fs : Fs) (ctx : pythonPlanContext) (h : Coherent fs ctx) :
    (DetermineWsgi ctx).1 = wsgiRef fs ∧ Coherent fs (DetermineWsgi ctx).2 := by
  obtain ⟨hf, hc⟩ := DetermineFramework_coherent fs ctx h
  unfold DetermineWsgi wsgiRef
  simp only [hf]
  cases hF : frameworkRef fs with
  | PythonFrameworkNone => simpa using hc
  | PythonFrameworkFlask => simpa using wsgiFromEntry_coherent "Flask" fs _ hc
  | PythonFrameworkFastapi => simpa using wsgiFromEntry_coherent "FastAPI" fs _ hc
  | PythonFrameworkDjango =>
    obtain ⟨hfs, hfw, hen, hdp⟩ := hc
    simp only [if_true, Src.ReadDir, hfs, wsgiDjangoRef]
    cases hR : fs.ReadDir "/" with
    | none => exact ⟨rfl, rfl, hfw, hen, hdp⟩
    | some dir =>
      simp only
      have hs := scanWsgiDirs_fst dir
        { fs := fs, calls := (DetermineFramework ctx).2.Src.calls ++ [Probe.list "/"] }
      simp only at hs
      rw [hs.1]
      cases hfd : dir.find? (fun d => d.IsDir && fs.HasFile (d.Name ++ "/wsgi.py")) with
      | none => exact ⟨rfl, hs.2, hfw, hen, hdp⟩
      | some d => exact ⟨rfl, hs.2, hfw, hen, hdp⟩


theorem determineInstallCmd_coherent (fs : Fs) (ctx : pythonPlanContext) (h : Coherent fs ctx) :
    (determineInstallCmd ctx).1 = installTable (policyRef fs) (wsgiRef fs) (frameworkRef fs) ∧
      Coherent fs (determineInstallCmd ctx).2 := by
  obtain ⟨hp, h1⟩ := DetermineDependencyPolicy_coherent fs ctx h
  obtain ⟨hw, h2⟩ := DetermineWsgi_coherent fs _ h1
  obtain ⟨hf, h3⟩ := DetermineFramework_coherent fs _ h2
  unfold determineInstallCmd installTable
  simp only [hp, hw, hf]
  split_ifs <;> exact ⟨rfl, h3⟩

theorem determineStartCmd_coherent (fs : Fs) (ctx : pythonPlanContext) (h : Coherent fs ctx) :
    (determineStartCmd ctx).1 = startTable (wsgiRef fs) (frameworkRef fs) (entryRef fs) ∧
      Coherent fs (determineStartCmd ctx).2 := by
  obtain ⟨hw, h2⟩ := DetermineWsgi_coherent fs ctx h
  obtain ⟨hf, h3⟩ := DetermineFramework_coherent fs _ h2
  obtain ⟨he, h4⟩ := DetermineEntry_coherent fs _ h3
  unfold determineStartCmd startTable
  simp only [hw, hf, he]
  split_ifs
  · exact ⟨rfl, h3⟩
  · exact ⟨rfl, h3⟩
  · exact ⟨rfl, h4⟩

theorem GetMeta_install (name : PythonFramework → String) (fs : Fs) :
    GetMeta name ⟨fs⟩ "install" =
      some (installTable (policyRef fs) (wsgiRef fs) (frameworkRef fs)) := by
  obtain ⟨_, h1⟩ := DetermineFramework_coherent fs _ (coherent_fresh fs)
  obtain ⟨hi, _⟩ := determineInstallCmd_coherent fs _ h1
  unfold GetMeta
  simp only [hi]
  split_ifs <;> simp [PlanMeta.set]

theorem GetMeta_start (name : PythonFramework → String) (fs : Fs) :
    GetMeta name ⟨fs⟩ "start" =
      some (startTable (wsgiRef fs) (frameworkRef fs) (entryRef fs)) := by
  obtain ⟨_, h1⟩ := DetermineFramework_coherent fs _ (coherent_fresh fs)
  obtain ⟨_, h2⟩ := determineInstallCmd_coherent fs _ h1
  obtain ⟨hs, _⟩ := determineStartCmd_coherent fs _ h2
  unfold GetMeta
  simp only [hs]
  split_ifs <;> simp [PlanMeta.set]

theorem firstExisting_three (fs : Fs) (a b c dflt : String) :
    firstExisting fs [a, b, c] dflt =
      if fs.HasFile a then a else if fs.HasFile b then b else if fs.HasFile c then c
      else dflt := by
  unfold firstExisting
  cases ha : fs.HasFile a <;> cases hb : fs.HasFile b <;> cases hc : fs.HasFile c <;>
    simp [List.find?, ha, hb, hc]


/-! ## Memoization

The three detectors that consult their memo slot return the same pair, context
included, when called again: the second call performs no accessor operation.
`DetermineWsgi` returns the same value again, but see the evaluation below. -/

theorem DetermineFramework_of_some (ctx : pythonPlanContext) (v : PythonFramework)
    (h : ctx.Framework = some v) : DetermineFramework ctx = (v, ctx) := by
  unfold DetermineFramework
  rw [h]

theorem DetermineFramework_memo (ctx : pythonPlanContext) :
    (DetermineFramework ctx).2.Framework = some (DetermineFramework ctx).1 := by
  unfold DetermineFramework
  cases hF : ctx.Framework with
  | some v => exact hF
  | none =>
    simp only
    cases (ctx.Src.ReadFile "requirements.txt").1 with
    | none => rfl
    | some req =>
      simp only
      split_ifs <;> rfl

theorem DetermineFramework_twice (ctx : pythonPlanContext) :
    DetermineFramework (DetermineFramework ctx).2 = DetermineFramework ctx :=
  DetermineFramework_of_some _ _ (DetermineFramework_memo ctx)

theorem DetermineEntry_of_some (ctx : pythonPlanContext) (v : String)
    (h : ctx.Entry = some v) : DetermineEntry ctx = (v, ctx) := by
  unfold DetermineEntry
  rw [h]

theorem DetermineEntry_memo (ctx : pythonPlanContext) :
    (DetermineEntry ctx).2.Entry = some (DetermineEntry ctx).1 := by
  unfold DetermineEntry
  cases hE : ctx.Entry with
  | some v => exact hE
  | none =>
    simp only
    cases (scanFiles ["main.py", "app.py", "manage.py"] ctx.Src).1 <;> rfl

theorem DetermineEntry_twice (ctx : pythonPlanContext) :
    DetermineEntry (DetermineEntry ctx).2 = DetermineEntry ctx :=
  DetermineEntry_of_some _ _ (DetermineEntry_memo ctx)

theorem DetermineDependencyPolicy_of_some (ctx : pythonPlanContext) (v : String)
    (h : ctx.DependencyFile = some v) : DetermineDependencyPolicy ctx = (v, ctx) := by
  unfold DetermineDependencyPolicy
  rw [h]

theorem DetermineDependencyPolicy_memo (ctx : pythonPlanContext) :
    (DetermineDependencyPolicy ctx).2.DependencyFile =
      some (DetermineDependencyPolicy ctx).1 := by
  unfold DetermineDependencyPolicy
  cases hD : ctx.DependencyFile with
  | some v => exact hD
  | none =>
    simp only
    cases (scanFiles ["requirements.txt", "Pipfile", "pyproject.toml"] ctx.Src).1 <;> rfl

theorem DetermineDependencyPolicy_twice (ctx : pythonPlanContext) :
    DetermineDependencyPolicy (DetermineDependencyPolicy ctx).2 =
      DetermineDependencyPolicy ctx :=
  DetermineDependencyPolicy_of_some _ _ (DetermineDependencyPolicy_memo ctx)

theorem DetermineWsgi_twice_result (fs : Fs) :
    (DetermineWsgi (DetermineWsgi (freshContext fs)).2).1 =
      (DetermineWsgi (freshContext fs)).1 := by
  obtain ⟨h1, hc⟩ := DetermineWsgi_coherent fs _ (coherent_fresh fs)
  rw [(DetermineWsgi_coherent fs _ hc).1, h1]

/-! ## The claims -/

/-- C1: on a fresh context `DetermineFramework` equals the ordered
first-match-wins reference `frameworkRef`: None when `requirements.txt` cannot
be read, else Django when the contents weakly contain "django", else Django when
`manage.py` exists, else Flask when they weakly contain "flask", else FastAPI
when they weakly contain "fastapi", else None.  In particular contents naming
both django and flask give Django, and an existing `manage.py` next to a readable
`requirements.txt` gives Django whatever the contents say about flask or fastapi. -/
theorem C1_DetermineFramework_first_match (fs : Fs) :
    (DetermineFramework (freshContext fs)).1 = frameworkRef fs ∧
      (∀ req, fs.ReadFile "requirements.txt" = some req → WeakContains req "django" = true →
        WeakContains req "flask" = true →
        (DetermineFramework (freshContext fs)).1 = PythonFrameworkDjango) ∧
      (∀ req, fs.ReadFile "requirements.txt" = some req → fs.HasFile "manage.py" = true →
        (DetermineFramework (freshContext fs)).1 = PythonFrameworkDjango) := by
  have h := (DetermineFramework_coherent fs _ (coherent_fresh fs)).1
  refine ⟨h, ?_, ?_⟩
  · intro req hr hd _
    rw [h]; simp [frameworkRef, hr, hd]
  · intro req hr hm
    rw [h]; simp [frameworkRef, hr, hm]

theorem C1_DetermineFramework_first_match_witness :
    (DetermineFramework (freshContext djangoFlaskProject)).1 = PythonFrameworkDjango :=
  (C1_DetermineFramework_first_match djangoFlaskProject).2.1 "Django>=4.0\nflask" rfl
    (by decide) (by decide)

/-- C2: for every context (whatever its memo slots hold, so also for a
dependency policy outside the three manifest names), `determineInstallCmd`
returns the entry of the install decision table for the dependency policy, the
web-application reference and the framework that the three detectors return on
that context, in the order in which it calls them.  The nine rows:
`requirements.txt` with a non-empty reference gives
`pip install -r requirements.txt && pip install gunicorn`; with an empty
reference it gives `pip install -r requirements.txt && pip install uvicorn`
under FastAPI and `pip install -r requirements.txt` otherwise; `Pipfile` gives
`pipenv install && pipenv install gunicorn` or `pipenv install`;
`pyproject.toml` gives `poetry install && poetry install gunicorn` or
`poetry install`; any other policy gives `pip install gunicorn` or
`echo "skip install"`, according to whether the reference is non-empty.  On a
fresh context the three detector results are those of the detectors run on their
own fresh contexts. -/
theorem C2_determineInstallCmd_table (ctx : pythonPlanContext) :
    ((determineInstallCmd ctx).1 =
        installTable (DetermineDependencyPolicy ctx).1
          (DetermineWsgi (DetermineDependencyPolicy ctx).2).1
          (DetermineFramework (DetermineWsgi (DetermineDependencyPolicy ctx).2).2).1) ∧
      ((DetermineDependencyPolicy ctx).1 = "requirements.txt" →
        (DetermineWsgi (DetermineDependencyPolicy ctx).2).1 ≠ "" →
        (determineInstallCmd ctx).1 =
          "pip install -r requirements.txt && pip install gunicorn") ∧
      ((DetermineDependencyPolicy ctx).1 = "requirements.txt" →
        (DetermineWsgi (DetermineDependencyPolicy ctx).2).1 = "" →
        (DetermineFramework (DetermineWsgi (DetermineDependencyPolicy ctx).2).2).1 =
          PythonFrameworkFastapi →
        (determineInstallCmd ctx).1 =
          "pip install -r requirements.txt && pip install uvicorn") ∧
      ((DetermineDependencyPolicy ctx).1 = "requirements.txt" →
        (DetermineWsgi (DetermineDependencyPolicy ctx).2).1 = "" →
        (DetermineFramework (DetermineWsgi (DetermineDependencyPolicy ctx).2).2).1 ≠
          PythonFrameworkFastapi →
        (determineInstallCmd ctx).1 = "pip install -r requirements.txt") ∧
      ((DetermineDependencyPolicy ctx).1 = "Pipfile" →
        (DetermineWsgi (DetermineDependencyPolicy ctx).2).1 ≠ "" →
        (determineInstallCmd ctx).1 = "pipenv install && pipenv install gunicorn") ∧
      ((DetermineDependencyPolicy ctx).1 = "Pipfile" →
        (DetermineWsgi (DetermineDependencyPolicy ctx).2).1 = "" →
        (determineInstallCmd ctx).1 = "pipenv install") ∧
      ((DetermineDependencyPolicy ctx).1 = "pyproject.toml" →
        (DetermineWsgi (DetermineDependencyPolicy ctx).2).1 ≠ "" →
        (determineInstallCmd ctx).1 = "poetry install && poetry install gunicorn") ∧
      ((DetermineDependencyPolicy ctx).1 = "pyproject.toml" →
        (DetermineWsgi (DetermineDependencyPolicy ctx).2).1 = "" →
        (determineInstallCmd ctx).1 = "poetry install") ∧
      ((DetermineDependencyPolicy ctx).1 ≠ "requirements.txt" →
        (DetermineDependencyPolicy ctx).1 ≠ "Pipfile" →
        (DetermineDependencyPolicy ctx).1 ≠ "pyproject.toml" →
        (DetermineWsgi (DetermineDependencyPolicy ctx).2).1 ≠ "" →
        (determineInstallCmd ctx).1 = "pip install gunicorn") ∧
      ((DetermineDependencyPolicy ctx).1 ≠ "requirements.txt" →
        (DetermineDependencyPolicy ctx).1 ≠ "Pipfile" →
        (DetermineDependencyPolicy ctx).1 ≠ "pyproject.toml" →
        (DetermineWsgi (DetermineDependencyPolicy ctx).2).1 = "" →
        (determineInstallCmd ctx).1 = "echo \"skip install\"") ∧
      (∀ fs : Fs, (determineInstallCmd (freshContext fs)).1 =
        installTable (DetermineDependencyPolicy (freshContext fs)).1
          (DetermineWsgi (freshContext fs)).1 (DetermineFramework (freshContext fs)).1) := by
  have key : (determineInstallCmd ctx).1 =
      installTable (DetermineDependencyPolicy ctx).1
        (DetermineWsgi (DetermineDependencyPolicy ctx).2).1
        (DetermineFramework (DetermineWsgi (DetermineDependencyPolicy ctx).2).2).1 := by
    unfold determineInstallCmd installTable
    simp only
    split_ifs <;> rfl
  refine ⟨key, ?_, ?_, ?_, ?_, ?_, ?_, ?_, ?_, ?_, ?_⟩
  · intro hp hw
    rw [key, hp]
    simp [installTable, hw]
  · intro hp hw hf
    rw [key, hp, hw, hf]
    simp [installTable]
  · intro hp hw hf
    rw [key, hp, hw]
    simp [installTable, hf]
  · intro hp hw
    rw [key, hp]
    simp [installTable, hw]
  · intro hp hw
    rw [key, hp, hw]
    simp [installTable]
  · intro hp hw
    rw [key, hp]
    simp [installTable, hw]
  · intro hp hw
    rw [key, hp, hw]
    simp [installTable]
  · intro h1 h2 h3 hw
    rw [key]
    simp [installTable, h1, h2, h3, hw]
  · intro h1 h2 h3 hw
    rw [key, hw]
    simp [installTable, h1, h2, h3]
  · intro fs
    have hc := coherent_fresh fs
    rw [(determineInstallCmd_coherent fs _ hc).1,
      (DetermineDependencyPolicy_coherent fs _ hc).1,
      (DetermineWsgi_coherent fs _ hc).1, (DetermineFramework_coherent fs _ hc).1]

theorem C2_determineInstallCmd_table_witness :
    (determineInstallCmd (contextWithPolicy scenarioB "setup.py")).1 =
        "echo \"skip install\"" ∧
      (determineInstallCmd (contextWithPolicy scenarioA "setup.py")).1 =
        "pip install gunicorn" ∧
      (determineInstallCmd (contextWithPolicy scenarioA "Pipfile")).1 =
        "pipenv install && pipenv install gunicorn" :=
  ⟨(C2_determineInstallCmd_table (contextWithPolicy scenarioB "setup.py")).2.2.2.2.2.2.2.2.2.1
      (by decide) (by decide) (by decide) (by decide),
    (C2_determineInstallCmd_table (contextWithPolicy scenarioA "setup.py")).2.2.2.2.2.2.2.2.1
      (by decide) (by decide) (by decide) (by decide),
    (C2_determineInstallCmd_table (contextWithPolicy scenarioA "Pipfile")).2.2.2.2.1
      (by decide) (by decide)⟩

/-- C3: for every filesystem, `determineStartCmd` returns the entry of the start
decision table `startTable`: `uvicorn <ref> --host 0.0.0.0 --port 8080` for a
non-empty reference under FastAPI, `gunicorn --bind :8080 <ref>` for a non-empty
reference under any other framework, and `python <entry>` for an empty one,
with the reference, framework and entry that the detectors return. -/
theorem C3_determineStartCmd_table (fs : Fs) :
    (determineStartCmd (freshContext fs)).1 =
      startTable (DetermineWsgi (freshContext fs)).1 (DetermineFramework (freshContext fs)).1
        (DetermineEntry (freshContext fs)).1 := by
  have hc := coherent_fresh fs
  rw [(determineStartCmd_coherent fs _ hc).1, (DetermineEntry_coherent fs _ hc).1,
    (DetermineWsgi_coherent fs _ hc).1, (DetermineFramework_coherent fs _ hc).1]

/-- C4: scenario A.  For `requirements.txt` holding `Flask==2.0` and `app.py`
holding `app = Flask(__name__)` the framework is Flask (and is recorded under
the key `framework`), the entry is `app.py`, the web-application reference is
`app:app`, the install command is
`pip install -r requirements.txt && pip install gunicorn` and the start command
is `gunicorn --bind :8080 app:app`. -/
theorem C4_scenarioA (name : PythonFramework → String) :
    (DetermineFramework (freshContext scenarioA)).1 = PythonFrameworkFlask ∧
      GetMeta name ⟨scenarioA⟩ "framework" = some (name PythonFrameworkFlask) ∧
      (DetermineEntry (freshContext scenarioA)).1 = "app.py" ∧
      (DetermineWsgi (freshContext scenarioA)).1 = "app:app" ∧
      GetMeta name ⟨scenarioA⟩ "install" =
        some "pip install -r requirements.txt && pip install gunicorn" ∧
      GetMeta name ⟨scenarioA⟩ "start" = some "gunicorn --bind :8080 app:app" := by
  refine ⟨by decide, rfl, by decide, by decide, rfl, rfl⟩


/-- C5, as stated, fails on the empty project: the five results of scenario B do
not hold together, because the install command is not the skip-install
placeholder. -/
theorem C5_scenarioB_counterexample :
    ¬ ((DetermineFramework (freshContext scenarioB)).1 = PythonFrameworkNone ∧
        (DetermineDependencyPolicy (freshContext scenarioB)).1 = "requirements.txt" ∧
        (DetermineEntry (freshContext scenarioB)).1 = "main.py" ∧
        GetMeta (fun _ => "") ⟨scenarioB⟩ "install" = some "echo \"skip install\"" ∧
        GetMeta (fun _ => "") ⟨scenarioB⟩ "start" = some "python main.py") := by
  decide

/-- C5, amended: when none of `requirements.txt`, `Pipfile`, `pyproject.toml`,
`main.py`, `app.py`, `manage.py` exists, the framework is None (no `framework`
key is recorded), the dependency policy is `requirements.txt`, the entry is
`main.py`, the install command is `pip install -r requirements.txt` and the
start command is `python main.py`. -/
theorem C5_scenarioB_amended (name : PythonFramework → String) (fs : Fs)
    (hread : fs.ReadFile "requirements.txt" = none)
    (hreq : fs.HasFile "requirements.txt" = false)
    (hpip : fs.HasFile "Pipfile" = false)
    (hpyp : fs.HasFile "pyproject.toml" = false)
    (hmain : fs.HasFile "main.py" = false)
    (happ : fs.HasFile "app.py" = false)
    (hmanage : fs.HasFile "manage.py" = false) :
    (DetermineFramework (freshContext fs)).1 = PythonFrameworkNone ∧
      GetMeta name ⟨fs⟩ "framework" = none ∧
      (DetermineDependencyPolicy (freshContext fs)).1 = "requirements.txt" ∧
      (DetermineEntry (freshContext fs)).1 = "main.py" ∧
      GetMeta name ⟨fs⟩ "install" = some "pip install -r requirements.txt" ∧
      GetMeta name ⟨fs⟩ "start" = some "python main.py" := by
  have hc := coherent_fresh fs
  have hf : frameworkRef fs = PythonFrameworkNone := by simp [frameworkRef, hread]
  have hp : policyRef fs = "requirements.txt" := by
    simp [policyRef, firstExisting_three, hreq, hpip, hpyp]
  have he : entryRef fs = "main.py" := by
    simp [entryRef, firstExisting_three, hmain, happ, hmanage]
  have hw : wsgiRef fs = "" := by simp [wsgiRef, hf]
  refine ⟨?_, ?_, ?_, ?_, ?_, ?_⟩
  · rw [(DetermineFramework_coherent fs _ hc).1, hf]
  · have h1 := (DetermineFramework_coherent fs _ hc).1
    unfold GetMeta
    simp only [h1, hf]
    split_ifs <;> first | contradiction | simp [PlanMeta.set, PlanMeta.empty]
  · rw [(DetermineDependencyPolicy_coherent fs _ hc).1, hp]
  · rw [(DetermineEntry_coherent fs _ hc).1, he]
  · rw [GetMeta_install, hf, hp, hw]; simp [installTable]
  · rw [GetMeta_start, hf, he, hw]; simp [startTable]

theorem C5_scenarioB_amended_witness :
    (DetermineFramework (freshContext scenarioB)).1 = PythonFrameworkNone ∧
      GetMeta (fun _ => "") ⟨scenarioB⟩ "framework" = none ∧
      (DetermineDependencyPolicy (freshContext scenarioB)).1 = "requirements.txt" ∧
      (DetermineEntry (freshContext scenarioB)).1 = "main.py" ∧
      GetMeta (fun _ => "") ⟨scenarioB⟩ "install" = some "pip install -r requirements.txt" ∧
      GetMeta (fun _ => "") ⟨scenarioB⟩ "start" = some "python main.py" :=
  C5_scenarioB_amended (fun _ => "") scenarioB rfl rfl rfl rfl rfl rfl rfl

/-- C6: when `requirements.txt` cannot be read, `DetermineFramework` returns None
and `DetermineWsgi` returns the empty string, whatever else the filesystem
holds. -/
theorem C6_unreadable_requirements (fs : Fs) (hread : fs.ReadFile "requirements.txt" = none) :
    (DetermineFramework (freshContext fs)).1 = PythonFrameworkNone ∧
      (DetermineWsgi (freshContext fs)).1 = "" := by
  have hc := coherent_fresh fs
  have hf : frameworkRef fs = PythonFrameworkNone := by simp [frameworkRef, hread]
  rw [(DetermineFramework_coherent fs _ hc).1, (DetermineWsgi_coherent fs _ hc).1]
  simp [wsgiRef, hf]

theorem C6_unreadable_requirements_witness :
    unreadableRequirementsProject.HasFile "manage.py" = true ∧
      unreadableRequirementsProject.HasFile "mysite/wsgi.py" = true ∧
      (DetermineFramework (freshContext unreadableRequirementsProject)).1 = PythonFrameworkNone ∧
      (DetermineWsgi (freshContext unreadableRequirementsProject)).1 = "" :=
  ⟨by decide, by decide, C6_unreadable_requirements unreadableRequirementsProject rfl⟩

/-- C7: for a project classified as Django, `DetermineWsgi` returns `<dir>.wsgi`
for the first root entry, in listing order, that is a directory and holds
`wsgi.py`, and the empty string when there is no such entry or the root cannot
be listed; a non-empty result always comes from a root entry that is a
directory. -/
theorem C7_DetermineWsgi_django (fs : Fs)
    (hdj : (DetermineFramework (freshContext fs)).1 = PythonFrameworkDjango) :
    (DetermineWsgi (freshContext fs)).1 = wsgiDjangoRef fs ∧
      ((DetermineWsgi (freshContext fs)).1 = "" ∨
        ∃ entries d, fs.ReadDir "/" = some entries ∧ d ∈ entries ∧ d.IsDir = true ∧
          fs.HasFile (d.Name ++ "/wsgi.py") = true ∧
          (DetermineWsgi (freshContext fs)).1 = d.Name ++ ".wsgi") := by
  have hc := coherent_fresh fs
  rw [(DetermineFramework_coherent fs _ hc).1] at hdj
  have hw : (DetermineWsgi (freshContext fs)).1 = wsgiDjangoRef fs := by
    rw [(DetermineWsgi_coherent fs _ hc).1]; simp [wsgiRef, hdj]
  refine ⟨hw, ?_⟩
  rw [hw]
  unfold wsgiDjangoRef
  cases hR : fs.ReadDir "/" with
  | none => exact Or.inl rfl
  | some entries =>
    simp only
    cases hfd : entries.find? (fun d => d.IsDir && fs.HasFile (d.Name ++ "/wsgi.py")) with
    | none => exact Or.inl rfl
    | some d =>
      have hp := List.find?_some hfd
      have hm := List.mem_of_find?_eq_some hfd
      simp only [Bool.and_eq_true] at hp
      exact Or.inr ⟨entries, d, rfl, hm, hp.1, hp.2, rfl⟩

theorem C7_DetermineWsgi_django_witness :
    (DetermineWsgi (freshContext djangoProject)).1 = "mysite.wsgi" :=
  (C7_DetermineWsgi_django djangoProject (by decide)).1.trans (by decide)

/-- C8: on a fresh context `DetermineEntry` returns the first of `main.py`,
`app.py`, `manage.py` that exists and `main.py` when none does; two filesystems
that agree on the existence of these three files give the same entry; with only
`manage.py` present the entry is `manage.py`, with none present it is
`main.py`. -/
theorem C8_DetermineEntry_candidates (fs : Fs) :
    (DetermineEntry (freshContext fs)).1 =
        (if fs.HasFile "main.py" then "main.py"
         else if fs.HasFile "app.py" then "app.py"
         else if fs.HasFile "manage.py" then "manage.py"
         else "main.py") ∧
      (∀ fs2 : Fs, fs2.HasFile "main.py" = fs.HasFile "main.py" →
        fs2.HasFile "app.py" = fs.HasFile "app.py" →
        fs2.HasFile "manage.py" = fs.HasFile "manage.py" →
        (DetermineEntry (freshContext fs2)).1 = (DetermineEntry (freshContext fs)).1) ∧
      (fs.HasFile "main.py" = false → fs.HasFile "app.py" = false →
        fs.HasFile "manage.py" = true → (DetermineEntry (freshContext fs)).1 = "manage.py") ∧
      (fs.HasFile "main.py" = false → fs.HasFile "app.py" = false →
        fs.HasFile "manage.py" = false → (DetermineEntry (freshContext fs)).1 = "main.py") := by
  have key : ∀ g : Fs, (DetermineEntry (freshContext g)).1 =
      (if g.HasFile "main.py" then "main.py"
       else if g.HasFile "app.py" then "app.py"
       else if g.HasFile "manage.py" then "manage.py"
       else "main.py") := by
    intro g
    rw [(DetermineEntry_coherent g _ (coherent_fresh g)).1, entryRef, firstExisting_three]
  refine ⟨key fs, ?_, ?_, ?_⟩
  · intro fs2 h1 h2 h3
    rw [key fs2, key fs, h1, h2, h3]
  · intro h1 h2 h3
    rw [key fs, h1, h2, h3]; rfl
  · intro h1 h2 h3
    rw [key fs, h1, h2, h3]; rfl

theorem C8_DetermineEntry_candidates_witness :
    (DetermineEntry (freshContext manageOnlyProject)).1 = "manage.py" :=
  (C8_DetermineEntry_candidates manageOnlyProject).2.2.1 rfl rfl rfl

/-- C9: on a fresh context `DetermineDependencyPolicy` returns the first of
`requirements.txt`, `Pipfile`, `pyproject.toml` that exists and
`requirements.txt` when none does, so the result is one of these three names. -/
theorem C9_DetermineDependencyPolicy_priority (fs : Fs) :
    (DetermineDependencyPolicy (freshContext fs)).1 =
        (if fs.HasFile "requirements.txt" then "requirements.txt"
         else if fs.HasFile "Pipfile" then "Pipfile"
         else if fs.HasFile "pyproject.toml" then "pyproject.toml"
         else "requirements.txt") ∧
      ((DetermineDependencyPolicy (freshContext fs)).1 = "requirements.txt" ∨
        (DetermineDependencyPolicy (freshContext fs)).1 = "Pipfile" ∨
        (DetermineDependencyPolicy (freshContext fs)).1 = "pyproject.toml") := by
  have key : (DetermineDependencyPolicy (freshContext fs)).1 =
      (if fs.HasFile "requirements.txt" then "requirements.txt"
       else if fs.HasFile "Pipfile" then "Pipfile"
       else if fs.HasFile "pyproject.toml" then "pyproject.toml"
       else "requirements.txt") := by
    rw [(DetermineDependencyPolicy_coherent fs _ (coherent_fresh fs)).1, policyRef,
      firstExisting_three]
  refine ⟨key, ?_⟩
  rw [key]
  split_ifs <;> simp

/-- C10, evaluated where it fails: on the Django project the first call of
`DetermineWsgi` returns `mysite.wsgi` and stores it in the slot `Wsgi`, yet the
second call on the resulting context lists the root and checks both directories
again; on scenario A the second call reads `app.py` again.  The results of the
two calls agree. -/
theorem C10_DetermineWsgi_probes_again :
    (DetermineWsgi (freshContext djangoProject)).1 = "mysite.wsgi" ∧
      (DetermineWsgi (freshContext djangoProject)).2.Wsgi = some "mysite.wsgi" ∧
      (DetermineWsgi (DetermineWsgi (freshContext djangoProject)).2).1 = "mysite.wsgi" ∧
      (DetermineWsgi (DetermineWsgi (freshContext djangoProject)).2).2.Src.calls =
        (DetermineWsgi (freshContext djangoProject)).2.Src.calls ++
          [Probe.list "/", Probe.stat "docs/wsgi.py", Probe.stat "mysite/wsgi.py"] ∧
      (DetermineWsgi (DetermineWsgi (freshContext scenarioA)).2).2.Src.calls =
        (DetermineWsgi (freshContext scenarioA)).2.Src.calls ++ [Probe.read "app.py"] := by
  decide



/-! ## The dependency probe -/

theorem containsChars_iff_contiguous (s sub : List Char) :
    containsChars s sub = true ↔ sub <:+: s := by
  induction s with
  | nil =>
    unfold containsChars
    simp [List.infix_nil]
  | cons c cs ih =>
    unfold containsChars
    rw [Bool.or_eq_true, ih, List.infix_cons_iff, List.isPrefixOf_iff_prefix]

theorem anyDependencyIn_iff (file : String) (dependencies : List String) :
    anyDependencyIn file dependencies = true ↔
      ∃ d ∈ dependencies, d.data <:+: file.data := by
  induction dependencies with
  | nil => simp [anyDependencyIn]
  | cons d rest ih =>
    unfold anyDependencyIn
    cases h : stringsContains file d with
    | true =>
      simp only [if_true, List.mem_cons, true_iff]
      exact ⟨d, Or.inl rfl, (containsChars_iff_contiguous _ _).1 h⟩
    | false =>
      have h2 : ¬ d.data <:+: file.data := fun hi => by
        have := (containsChars_iff_contiguous _ _).2 hi
        unfold stringsContains at h
        rw [h] at this
        cases this
      simp only [Bool.false_eq_true, if_false, ih, List.mem_cons]
      constructor
      · rintro ⟨x, hx, hi⟩
        exact ⟨x, Or.inr hx, hi⟩
      · rintro ⟨x, hx | hx, hi⟩
        · exact absurd (hx ▸ hi) h2
        · exact ⟨x, hx, hi⟩

theorem scanDependencyFiles_iff (dependencies files : List String) (s : Src) :
    (scanDependencyFiles dependencies files s).1 = true ↔
      ∃ file ∈ files, ∃ content, s.fs.ReadFile file = some content ∧
        ∃ d ∈ dependencies, d.data <:+: content.data := by
  induction files generalizing s with
  | nil => simp [scanDependencyFiles]
  | cons f rest ih =>
    unfold scanDependencyFiles
    simp only [Src.ReadFile, List.mem_cons]
    cases hR : s.fs.ReadFile f with
    | none =>
      simp only
      rw [ih]
      constructor
      · rintro ⟨x, hx, c, hc, hd⟩
        exact ⟨x, Or.inr hx, c, hc, hd⟩
      · rintro ⟨x, hx | hx, c, hc, hd⟩
        · rw [hx, hR] at hc; cases hc
        · exact ⟨x, hx, c, hc, hd⟩
    | some content =>
      simp only
      cases h : anyDependencyIn content dependencies with
      | true =>
        simp only [if_true, true_iff]
        exact ⟨f, Or.inl rfl, content, hR, (anyDependencyIn_iff _ _).1 h⟩
      | false =>
        simp only [Bool.false_eq_true, if_false]
        rw [ih]
        constructor
        · rintro ⟨x, hx, c, hc, hd⟩
          exact ⟨x, Or.inr hx, c, hc, hd⟩
        · rintro ⟨x, hx | hx, c, hc, hd⟩
          · rw [hx, hR] at hc
            cases hc
            have := (anyDependencyIn_iff _ _).2 hd
            rw [h] at this
            cases this
          · exact ⟨x, hx, c, hc, hd⟩

/-- C11: `HasDependency` returns true exactly when one of `requirements.txt`,
`Pipfile`, `pyproject.toml`, `Pipfile.lock`, `poetry.lock` can be read and one
of the supplied names occurs in its contents as a contiguous (case-sensitive)
run of characters.  In particular it returns false when none of the five files
can be read, when no readable file holds any of the names, and when no name is
supplied. -/
theorem C11_HasDependency_iff (fs : Fs) (calls : List Probe) (dependencies : List String) :
    ((HasDependency ⟨fs, calls⟩ dependencies).1 = true ↔
        ∃ file ∈ ["requirements.txt", "Pipfile", "pyproject.toml", "Pipfile.lock",
            "poetry.lock"],
          ∃ content, fs.ReadFile file = some content ∧
            ∃ d ∈ dependencies, d.data <:+: content.data) ∧
      ((∀ file ∈ ["requirements.txt", "Pipfile", "pyproject.toml", "Pipfile.lock",
            "poetry.lock"], fs.ReadFile file = none) →
        (HasDependency ⟨fs, calls⟩ dependencies).1 = false) ∧
      ((∀ file ∈ ["requirements.txt", "Pipfile", "pyproject.toml", "Pipfile.lock",
            "poetry.lock"], ∀ content, fs.ReadFile file = some content →
            ∀ d ∈ dependencies, ¬ d.data <:+: content.data) →
        (HasDependency ⟨fs, calls⟩ dependencies).1 = false) ∧
      (dependencies = [] → (HasDependency ⟨fs, calls⟩ dependencies).1 = false) := by
  have key := scanDependencyFiles_iff dependencies
    ["requirements.txt", "Pipfile", "pyproject.toml", "Pipfile.lock", "poetry.lock"] ⟨fs, calls⟩
  refine ⟨key, ?_, ?_, ?_⟩
  · intro hnone
    rw [← Bool.not_eq_true]
    intro ht
    obtain ⟨file, hf, content, hc, _⟩ := key.1 ht
    rw [hnone file hf] at hc
    cases hc
  · intro hno
    rw [← Bool.not_eq_true]
    intro ht
    obtain ⟨file, hf, content, hc, d, hd, hi⟩ := key.1 ht
    exact hno file hf content hc d hd hi
  · intro he
    rw [← Bool.not_eq_true]
    intro ht
    obtain ⟨_, _, _, _, d, hd, _⟩ := key.1 ht
    rw [he] at hd
    cases hd

theorem C11_HasDependency_iff_witness :
    (HasDependency ⟨pipfilePostgresProject, []⟩ ["mysqlclient", "psycopg2"]).1 = true ∧
      (HasDependency ⟨scenarioB, []⟩ ["mysqlclient", "psycopg2"]).1 = false :=
  ⟨(C11_HasDependency_iff pipfilePostgresProject [] ["mysqlclient", "psycopg2"]).1.2
      ⟨"Pipfile", by decide, "[packages]\npsycopg2 = \"*\"", rfl, "psycopg2", by decide,
        (containsChars_iff_contiguous _ _).1 (by decide)⟩,
    (C11_HasDependency_iff scenarioB [] ["mysqlclient", "psycopg2"]).2.1
      (fun _ _ => rfl)⟩

/-- C12, evaluated where it fails: for a `requirements.txt` naming both
`mysqlclient` and `psycopg2` the probe reports each of the two dependencies,
yet `apt-deps` is `libmariadb-dev build-essential` and does not hold
`libpq-dev`. -/
theorem C12_apt_deps_drops_libpq :
    (HasDependency ⟨bothDatabasesProject, []⟩ ["mysqlclient"]).1 = true ∧
      (HasDependency ⟨bothDatabasesProject, []⟩ ["psycopg2"]).1 = true ∧
      GetMeta (fun _ => "") ⟨bothDatabasesProject⟩ "apt-deps" =
        some "libmariadb-dev build-essential" ∧
      stringsContains "libmariadb-dev build-essential" "libpq-dev" = false := by
  decide


/-! ## The instruction synthesizers -/

/-- C13: for every metadata map the Python `GenerateDockerfile` returns no
error and exactly the nine lines `FROM docker.io/library/python:3.8.2-slim-buster`,
`WORKDIR /app`, `RUN apt-get update`, `RUN apt-get install <apt-deps> gcc -y`,
`RUN rm -rf /var/lib/apt/lists/*`, `COPY . .`, `RUN <install>`, `EXPOSE 8080`,
`CMD <start>` joined by newlines, where the three values are read from the keys
`apt-deps`, `install`, `start` (the empty string when absent); two maps that
agree on these three reads give the same text. -/
theorem C13_python_GenerateDockerfile (m : PlanMeta) :
    python.GenerateDockerfile m =
        Except.ok ("\n".intercalate
          ["FROM docker.io/library/python:3.8.2-slim-buster",
            "WORKDIR /app",
            "RUN apt-get update",
            "RUN apt-get install " ++ m.get "apt-deps" ++ " gcc -y",
            "RUN rm -rf /var/lib/apt/lists/*",
            "COPY . .",
            "RUN " ++ m.get "install",
            "EXPOSE 8080",
            "CMD " ++ m.get "start"]) ∧
      (m "apt-deps" = none → m.get "apt-deps" = "") ∧
      (∀ m2 : PlanMeta, m2.get "apt-deps" = m.get "apt-deps" →
        m2.get "install" = m.get "install" → m2.get "start" = m.get "start" →
        python.GenerateDockerfile m2 = python.GenerateDockerfile m) := by
  refine ⟨?_, ?_, ?_⟩
  · unfold python.GenerateDockerfile
    refine congrArg Except.ok (String.ext ?_)
    simp only [String.intercalate, String.intercalate.go, String.data_append,
      List.append_assoc]
    rfl
  · intro h
    simp [PlanMeta.get, h]
  · intro m2 h1 h2 h3
    unfold python.GenerateDockerfile
    simp only [h1, h2, h3]

theorem takeWhile_append_of_stop (p : Char → Bool) (l1 l2 : List Char)
    (h : ∃ x ∈ l1, p x = false) : (l1 ++ l2).takeWhile p = l1.takeWhile p := by
  induction l1 with
  | nil => obtain ⟨x, hx, _⟩ := h; cases hx
  | cons a rest ih =>
    cases hp : p a with
    | false => simp [List.takeWhile, hp]
    | true =>
      obtain ⟨x, hx, hpx⟩ := h
      have hrest : ∃ y ∈ rest, p y = false := by
        rcases List.mem_cons.1 hx with rfl | hmem
        · rw [hp] at hpx; cases hpx
        · exact ⟨x, hmem, hpx⟩
      simp [List.takeWhile, hp, ih hrest]

theorem finalLine_append (a b : String) (h : '\n' ∈ b.data) :
    finalLine (a ++ b) = finalLine b := by
  unfold finalLine
  rw [String.data_append, List.reverse_append]
  rw [takeWhile_append_of_stop]
  exact ⟨'\n', List.mem_reverse.2 h, by decide⟩

/-- C14: with the Maven and Gradle constants different (they label two cases of
one `switch`), for every metadata map the Java `GenerateDockerfile` returns no
error, and: for type Maven and framework SpringBoot the text is the Maven build
followed by the final line `CMD java -Dserver.port=$PORT -jar target/*.jar`;
for Maven without SpringBoot the final line is `CMD java -jar target/*.jar`;
for Gradle the two final lines are
`CMD java -Dserver.port=$PORT -jar build/libs/*.jar` and
`CMD java -jar build/libs/*.jar`.  Neither `jdk` nor any other key changes the
final line. -/
theorem C14_java_run_command (T : JavaTypes)
    (hne : T.JavaProjectTypeMaven ≠ T.JavaProjectTypeGradle) (m : PlanMeta) :
    (m.get "type" = T.JavaProjectTypeMaven → m.get "framework" = T.JavaFrameworkSpringBoot →
        java.GenerateDockerfile T m =
            Except.ok ("FROM docker.io/library/openjdk:" ++ m.get "jdk" ++
              "-jdk-slim\nRUN apt-get update && apt-get install -y maven\nWORKDIR /src\nCOPY . .\nRUN mvn clean dependency:list install\nCMD java -Dserver.port=$PORT -jar target/*.jar") ∧
          finalLine ("FROM docker.io/library/openjdk:" ++ m.get "jdk" ++
              "-jdk-slim\nRUN apt-get update && apt-get install -y maven\nWORKDIR /src\nCOPY . .\nRUN mvn clean dependency:list install\nCMD java -Dserver.port=$PORT -jar target/*.jar") =
            "CMD java -Dserver.port=$PORT -jar target/*.jar") ∧
      (m.get "type" = T.JavaProjectTypeMaven → m.get "framework" ≠ T.JavaFrameworkSpringBoot →
        java.GenerateDockerfile T m =
            Except.ok ("FROM docker.io/library/openjdk:" ++ m.get "jdk" ++
              "-jdk-slim\nRUN apt-get update && apt-get install -y maven\nWORKDIR /src\nCOPY . .\nRUN mvn clean dependency:list install\nCMD java -jar target/*.jar") ∧
          finalLine ("FROM docker.io/library/openjdk:" ++ m.get "jdk" ++
              "-jdk-slim\nRUN apt-get update && apt-get install -y maven\nWORKDIR /src\nCOPY . .\nRUN mvn clean dependency:list install\nCMD java -jar target/*.jar") =
            "CMD java -jar target/*.jar") ∧
      (m.get "type" = T.JavaProjectTypeGradle → m.get "framework" = T.JavaFrameworkSpringBoot →
        java.GenerateDockerfile T m =
            Except.ok ("FROM docker.io/library/gradle:8.1.0-jdk" ++ m.get "jdk" ++
              "-alpine\nWORKDIR /src\nCOPY . .\nRUN gradle build\nCMD java -Dserver.port=$PORT -jar build/libs/*.jar") ∧
          finalLine ("FROM docker.io/library/gradle:8.1.0-jdk" ++ m.get "jdk" ++
              "-alpine\nWORKDIR /src\nCOPY . .\nRUN gradle build\nCMD java -Dserver.port=$PORT -jar build/libs/*.jar") =
            "CMD java -Dserver.port=$PORT -jar build/libs/*.jar") ∧
      (m.get "type" = T.JavaProjectTypeGradle → m.get "framework" ≠ T.JavaFrameworkSpringBoot →
        java.GenerateDockerfile T m =
            Except.ok ("FROM docker.io/library/gradle:8.1.0-jdk" ++ m.get "jdk" ++
              "-alpine\nWORKDIR /src\nCOPY . .\nRUN gradle build\nCMD java -jar build/libs/*.jar") ∧
          finalLine ("FROM docker.io/library/gradle:8.1.0-jdk" ++ m.get "jdk" ++
              "-alpine\nWORKDIR /src\nCOPY . .\nRUN gradle build\nCMD java -jar build/libs/*.jar") =
            "CMD java -jar build/libs/*.jar") := by
  refine ⟨?_, ?_, ?_, ?_⟩
  · intro ht hf
    refine ⟨?_, ?_⟩
    · unfold java.GenerateDockerfile
      simp only [ht, hf, hne, decide_True, decide_False, Bool.and_self, if_true, Bool.and_true,
        Bool.false_eq_true, if_false, Bool.false_and]
      refine congrArg Except.ok (String.ext ?_)
      simp only [String.data_append, List.append_assoc]
      rfl
    · rw [finalLine_append _ _ (by decide)]
      decide
  · intro ht hf
    refine ⟨?_, ?_⟩
    · unfold java.GenerateDockerfile
      simp only [ht, hf, hne, decide_True, decide_False, Bool.and_self, if_true, Bool.and_true,
        Bool.false_eq_true, if_false, Bool.false_and, Bool.and_false]
      refine congrArg Except.ok (String.ext ?_)
      simp only [String.data_append, List.append_assoc]
      rfl
    · rw [finalLine_append _ _ (by decide)]
      decide
  · intro ht hf
    refine ⟨?_, ?_⟩
    · unfold java.GenerateDockerfile
      simp only [ht, hf, hne.symm, decide_True, decide_False, Bool.and_self, if_true,
        Bool.and_true, Bool.false_eq_true, if_false, Bool.false_and]
      refine congrArg Except.ok (String.ext ?_)
      simp only [String.data_append, List.append_assoc]
      rfl
    · rw [finalLine_append _ _ (by decide)]
      decide
  · intro ht hf
    refine ⟨?_, ?_⟩
    · unfold java.GenerateDockerfile
      simp only [ht, hf, hne.symm, decide_True, decide_False, Bool.and_self, if_true,
        Bool.and_true, Bool.false_eq_true, if_false, Bool.false_and, Bool.and_false]
      refine congrArg Except.ok (String.ext ?_)
      simp only [String.data_append, List.append_assoc]
      rfl
    · rw [finalLine_append _ _ (by decide)]
      decide

theorem C14_java_run_command_witness :
    java.GenerateDockerfile sampleJavaTypes
        (PlanMeta.ofList [("type", "maven"), ("framework", "springboot"), ("jdk", "17")]) =
      Except.ok "FROM docker.io/library/openjdk:17-jdk-slim\nRUN apt-get update && apt-get install -y maven\nWORKDIR /src\nCOPY . .\nRUN mvn clean dependency:list install\nCMD java -Dserver.port=$PORT -jar target/*.jar" :=
  ((C14_java_run_command sampleJavaTypes (by decide)
    (PlanMeta.ofList [("type", "maven"), ("framework", "springboot"), ("jdk", "17")])).1
      rfl rfl).1


theorem scanStaticFrameworks_not_mem (T : NodeTypes) (framework : String) (fs : List String)
    (st : Bool × String) (h : framework ∉ fs) :
    nodejs.scanStaticFrameworks T framework fs st = st := by
  induction fs generalizing st with
  | nil => rfl
  | cons f rest ih =>
    have hf : framework ≠ f := fun e => h (e ▸ List.mem_cons_self _ _)
    have hr : framework ∉ rest := fun e => h (List.mem_cons_of_mem _ e)
    unfold nodejs.scanStaticFrameworks
    rw [if_neg hf]
    exact ih st hr

theorem scanStaticFrameworks_mem (T : NodeTypes) (framework : String) (fs : List String)
    (hd : fs.Nodup) (h : framework ∈ fs) :
    nodejs.scanStaticFrameworks T framework fs (false, "") =
      (true, nodejs.defaultStaticOutputDirs T framework) := by
  induction fs with
  | nil => cases h
  | cons f rest ih =>
    rw [List.nodup_cons] at hd
    unfold nodejs.scanStaticFrameworks
    by_cases hf : framework = f
    · rw [if_pos hf]
      have hr : framework ∉ rest := hf ▸ hd.1
      rw [scanStaticFrameworks_not_mem T framework rest _ hr]
      simp [hf]
    · rw [if_neg hf]
      rcases List.mem_cons.1 h with e | e
      · exact absurd e hf
      · exact ih hd.2 e

theorem startCmd_begins_with_CMD (T : NodeTypes) (m : PlanMeta) :
    ∃ rest, nodejs.startCmd T m = "CMD " ++ rest := by
  unfold nodejs.startCmd
  simp only
  split_ifs
  · exact ⟨"node " ++ m.get "mainFile", by rw [← String.append_assoc]; rfl⟩
  · exact ⟨"node .output/server/index.mjs", rfl⟩
  · exact ⟨"node index.js", rfl⟩
  · exact ⟨"yarn " ++ m.get "startCommand", by rw [← String.append_assoc]; rfl⟩
  · exact ⟨"pnpm " ++ m.get "startCommand", by rw [← String.append_assoc]; rfl⟩
  · exact ⟨"npm run " ++ m.get "startCommand", by rw [← String.append_assoc]; rfl⟩
  · exact ⟨"yarn " ++ m.get "startCommand", by rw [← String.append_assoc]; rfl⟩

theorem sliceFrom_CMD (rest : String) : sliceFrom ("CMD " ++ rest) 4 = some rest := by
  unfold sliceFrom
  rw [String.data_append]
  have h : dropBytes ("CMD ".data ++ rest.data) 4 = some rest.data := by
    show dropBytes ('C' :: 'M' :: 'D' :: ' ' :: rest.data) 4 = some rest.data
    have hC : ('C').utf8Size = 1 := by decide
    have hM : ('M').utf8Size = 1 := by decide
    have hD : ('D').utf8Size = 1 := by decide
    have hS : (' ').utf8Size = 1 := by decide
    simp [dropBytes, hC, hM, hD, hS]
  rw [h]
  rfl


theorem GenerateDockerfile_dynamic (T : NodeTypes) (m : PlanMeta)
    (h : m.get "framework" ∉ nodejs.staticFrameworks T) (rest : String)
    (hrest : nodejs.startCmd T m = "CMD " ++ rest) :
    nodejs.GenerateDockerfile T m =
      Except.ok
        (if m.get "needPuppeteer" = "true" then
          nodeServerText (m.get "nodeVersion") (nodejs.installCmd T m) (nodejs.buildCmd T m)
            puppeteerBlock ("CMD node node_modules/puppeteer/install.js && " ++ rest)
        else
          nodeServerText (m.get "nodeVersion") (nodejs.installCmd T m) (nodejs.buildCmd T m)
            "" (nodejs.startCmd T m)) := by
  unfold nodejs.GenerateDockerfile
  simp only [scanStaticFrameworks_not_mem T _ _ _ h, Bool.false_eq_true, if_false]
  by_cases hp : m.get "needPuppeteer" = "true"
  · simp only [hp, decide_True, if_true, hrest, sliceFrom_CMD]
    rfl
  · simp only [hp, decide_False, Bool.false_eq_true, if_false]
    rfl

theorem GenerateDockerfile_static (T : NodeTypes) (m : PlanMeta)
    (hd : (nodejs.staticFrameworks T).Nodup)
    (h : m.get "framework" ∈ nodejs.staticFrameworks T) :
    nodejs.GenerateDockerfile T m =
      Except.ok
        (if m.get "framework" = T.NodeProjectFrameworkHexo ∨
            m.get "framework" = T.NodeProjectFrameworkVitepress ∨
            m.get "framework" = T.NodeProjectFrameworkAstro then
          nodeMultiPageText (m.get "nodeVersion") (nodejs.installCmd T m) (nodejs.buildCmd T m)
            (nodejs.defaultStaticOutputDirs T (m.get "framework"))
        else
          nodeSinglePageText (m.get "nodeVersion") (nodejs.installCmd T m) (nodejs.buildCmd T m)
            (nodejs.defaultStaticOutputDirs T (m.get "framework"))) := by
  unfold nodejs.GenerateDockerfile
  simp only [scanStaticFrameworks_mem T _ _ hd h, if_true]
  by_cases hc : m.get "framework" = T.NodeProjectFrameworkHexo ∨
      m.get "framework" = T.NodeProjectFrameworkVitepress ∨
      m.get "framework" = T.NodeProjectFrameworkAstro
  · simp only [hc, if_true, Bool.false_eq_true, if_false]
    rfl
  · simp only [hc, if_true, if_false]
    rfl

/-- C17: for every metadata map the start instruction computed before the
puppeteer step is `CMD ` followed by some text `rest`, so the slice
`startCmd[4:]` is in range and equals `rest`; the Node.js `GenerateDockerfile`
returns a text and no failure; and when `needPuppeteer` is `true` and the
framework is not a static-output framework, the text is the single-stage text
with the puppeteer block whose last part, the start instruction, is
`CMD node node_modules/puppeteer/install.js && ` followed by `rest`. -/
theorem C17_node_start_slice_in_range (T : NodeTypes) (m : PlanMeta) :
    (∃ rest, nodejs.startCmd T m = "CMD " ++ rest ∧
        sliceFrom (nodejs.startCmd T m) 4 = some rest ∧
        (m.get "needPuppeteer" = "true" → m.get "framework" ∉ nodejs.staticFrameworks T →
          nodejs.GenerateDockerfile T m =
            Except.ok (nodeServerText (m.get "nodeVersion") (nodejs.installCmd T m)
              (nodejs.buildCmd T m) puppeteerBlock
              ("CMD node node_modules/puppeteer/install.js && " ++ rest)))) ∧
      (∃ text, nodejs.GenerateDockerfile T m = Except.ok text) := by
  obtain ⟨rest, hrest⟩ := startCmd_begins_with_CMD T m
  refine ⟨⟨rest, hrest, ?_, ?_⟩, ?_⟩
  · rw [hrest, sliceFrom_CMD]
  · intro hp hf
    rw [GenerateDockerfile_dynamic T m hf rest hrest, if_pos hp]
  · unfold nodejs.GenerateDockerfile
    simp only [hrest, sliceFrom_CMD]
    split_ifs <;> exact ⟨_, rfl⟩

theorem C17_node_start_slice_in_range_witness :
    nodejs.GenerateDockerfile sampleNodeTypes puppeteerMeta =
      Except.ok (nodeServerText "" "RUN npm install" "" puppeteerBlock
        "CMD node node_modules/puppeteer/install.js && node index.js") :=
  (C17_node_start_slice_in_range sampleNodeTypes puppeteerMeta).1.elim
    (fun rest h => by
      have e : rest = "node index.js" := by
        have h1 := h.2.1
        have h2 : sliceFrom (nodejs.startCmd sampleNodeTypes puppeteerMeta) 4 =
            some "node index.js" := by decide
        rw [h2] at h1
        exact (Option.some.inj h1).symm
      have h3 := h.2.2 (by decide) (by decide)
      rw [e] at h3
      exact h3)


set_option maxRecDepth 100000

/-- C15, as stated, fails when puppeteer is needed: the metadata with
`packageManager` npm, no build command, no start command, no main file and no
framework meets every condition of scenario C, yet with `needPuppeteer` set to
`true` the final line is
`CMD node node_modules/puppeteer/install.js && node index.js` and not
`CMD node index.js`. -/
theorem C15_scenarioC_counterexample :
    puppeteerMeta.get "packageManager" = sampleNodeTypes.NodePackageManagerNpm ∧
      puppeteerMeta.get "buildCommand" = "" ∧
      puppeteerMeta.get "startCommand" = "" ∧
      puppeteerMeta.get "mainFile" = "" ∧
      puppeteerMeta.get "framework" ∉ nodejs.staticFrameworks sampleNodeTypes ∧
      puppeteerMeta.get "framework" ≠ "nuxt.js" ∧
      finalInstruction (nodejs.GenerateDockerfile sampleNodeTypes puppeteerMeta) =
        some "CMD node node_modules/puppeteer/install.js && node index.js" ∧
      finalInstruction (nodejs.GenerateDockerfile sampleNodeTypes puppeteerMeta) ≠
        some "CMD node index.js" := by
  decide

/-- C15, amended: for `packageManager` npm, empty `buildCommand`, `startCommand`
and `mainFile`, a framework that is neither a static-output framework nor
`nuxt.js`, and `needPuppeteer` different from `true`, the build instruction is
empty, the text is the single-stage text whose build slot is an empty line, it
holds no `RUN npm run` after the image line, and its final line is
`CMD node index.js`. -/
theorem C15_scenarioC_amended (T : NodeTypes) (m : PlanMeta)
    (hpm : m.get "packageManager" = T.NodePackageManagerNpm)
    (hbuild : m.get "buildCommand" = "")
    (hstart : m.get "startCommand" = "")
    (hmain : m.get "mainFile" = "")
    (hfw : m.get "framework" ∉ nodejs.staticFrameworks T)
    (hnuxt : m.get "framework" ≠ "nuxt.js")
    (hpup : m.get "needPuppeteer" ≠ "true") :
    nodejs.buildCmd T m = "" ∧
      nodejs.GenerateDockerfile T m =
        Except.ok ("FROM node:" ++ m.get "nodeVersion" ++
          " \nENV PORT=8080\nWORKDIR /src\nCOPY . .\nRUN npm install\n\n\nEXPOSE 8080\nCMD node index.js") ∧
      stringsContains
          " \nENV PORT=8080\nWORKDIR /src\nCOPY . .\nRUN npm install\n\n\nEXPOSE 8080\nCMD node index.js"
          "RUN npm run" = false ∧
      finalInstruction (nodejs.GenerateDockerfile T m) = some "CMD node index.js" := by
  have hb : nodejs.buildCmd T m = "" := by
    unfold nodejs.buildCmd
    simp only [hbuild, if_true]
  have hs : nodejs.startCmd T m = "CMD " ++ "node index.js" := by
    unfold nodejs.startCmd
    simp only [hstart, hmain, hnuxt, if_true, if_false, ne_eq, not_true_eq_false]
    rfl
  have hi : nodejs.installCmd T m = "RUN npm install" := by
    unfold nodejs.installCmd
    simp only [hpm, if_true]
  have ht : nodejs.GenerateDockerfile T m =
      Except.ok ("FROM node:" ++ m.get "nodeVersion" ++
        " \nENV PORT=8080\nWORKDIR /src\nCOPY . .\nRUN npm install\n\n\nEXPOSE 8080\nCMD node index.js") := by
    rw [GenerateDockerfile_dynamic T m hfw _ hs, if_neg hpup, hb, hi, hs]
    refine congrArg Except.ok (String.ext ?_)
    simp only [nodeServerText, String.data_append, List.append_assoc]
    rfl
  refine ⟨hb, ht, by decide, ?_⟩
  rw [ht]
  show some (finalLine _) = _
  rw [finalLine_append _ _ (by decide)]
  decide

theorem C15_scenarioC_amended_witness :
    nodejs.GenerateDockerfile sampleNodeTypes scenarioCMeta =
      Except.ok "FROM node: \nENV PORT=8080\nWORKDIR /src\nCOPY . .\nRUN npm install\n\n\nEXPOSE 8080\nCMD node index.js" :=
  (C15_scenarioC_amended sampleNodeTypes scenarioCMeta rfl rfl rfl rfl (by decide) (by decide)
    (by decide)).2.1


theorem lookup_cons_eq_ite (a k b : String) (es : List (String × String)) :
    List.lookup a ((k, b) :: es) = if a = k then some b else List.lookup a es := by
  by_cases h : a = k
  · simp [List.lookup_cons, h]
  · have hb : (a == k) = false := by simpa using h
    simp [List.lookup_cons, h, hb]

theorem defaultStaticOutputDirs_values (T : NodeTypes)
    (hd : (nodejs.staticFrameworks T).Nodup) :
    nodejs.defaultStaticOutputDirs T T.NodeProjectFrameworkVite = "dist" ∧
      nodejs.defaultStaticOutputDirs T T.NodeProjectFrameworkUmi = "dist" ∧
      nodejs.defaultStaticOutputDirs T T.NodeProjectFrameworkCreateReactApp = "build" ∧
      nodejs.defaultStaticOutputDirs T T.NodeProjectFrameworkVueCli = "dist" ∧
      nodejs.defaultStaticOutputDirs T T.NodeProjectFrameworkHexo = "public" ∧
      nodejs.defaultStaticOutputDirs T T.NodeProjectFrameworkVitepress =
        "docs/.vitepress/dist" ∧
      nodejs.defaultStaticOutputDirs T T.NodeProjectFrameworkAstro = "dist" := by
  obtain ⟨npm, yarn, pnpm, vite, umi, cra, vue, hexo, vp, astro⟩ := T
  simp only [nodejs.staticFrameworks, List.nodup_cons, List.mem_cons, List.mem_singleton,
    not_or, List.not_mem_nil, not_false_eq_true, List.nodup_nil, and_true] at hd
  obtain ⟨⟨h12, h13, h14, h15, h16, h17⟩, ⟨h23, h24, h25, h26, h27⟩, ⟨h34, h35, h36, h37⟩,
    ⟨h45, h46, h47⟩, ⟨h56, h57⟩, h67⟩ := hd
  simp only [nodejs.defaultStaticOutputDirs]
  refine ⟨?_, ?_, ?_, ?_, ?_, ?_, ?_⟩ <;>
    simp [lookup_cons_eq_ite, Ne.symm h12, Ne.symm h13, Ne.symm h14, Ne.symm h15, Ne.symm h16,
      Ne.symm h17, Ne.symm h23, Ne.symm h24, Ne.symm h25, Ne.symm h26, Ne.symm h27,
      Ne.symm h34, Ne.symm h35, Ne.symm h36, Ne.symm h37, Ne.symm h45, Ne.symm h46,
      Ne.symm h47, Ne.symm h56, Ne.symm h57, Ne.symm h67, h34]

theorem nodeServerText_ne_nodeSinglePageText (nv a b c d a2 b2 c2 : String) :
    nodeServerText nv a b c d ≠ nodeSinglePageText nv a2 b2 c2 := by
  intro h
  have h1 := congrArg String.data h
  simp only [nodeServerText, nodeSinglePageText, String.data_append, List.append_assoc] at h1
  have h2 := List.append_cancel_left (List.append_cancel_left h1)
  change (' ' :: '\n' :: _) = (' ' :: 'a' :: _) at h2
  injection h2 with _ h3
  injection h3 with h4 _
  exact absurd h4 (by decide)

theorem nodeServerText_ne_nodeMultiPageText (nv a b c d a2 b2 c2 : String) :
    nodeServerText nv a b c d ≠ nodeMultiPageText nv a2 b2 c2 := by
  intro h
  have h1 := congrArg String.data h
  simp only [nodeServerText, nodeMultiPageText, String.data_append, List.append_assoc] at h1
  have h2 := List.append_cancel_left (List.append_cancel_left h1)
  change (' ' :: '\n' :: _) = (' ' :: 'a' :: _) at h2
  injection h2 with _ h3
  injection h3 with h4 _
  exact absurd h4 (by decide)

theorem static_single_page_distinct (T : NodeTypes)
    (hd : (nodejs.staticFrameworks T).Nodup) (f : String)
    (hf : f = T.NodeProjectFrameworkVite ∨ f = T.NodeProjectFrameworkUmi ∨
      f = T.NodeProjectFrameworkCreateReactApp ∨ f = T.NodeProjectFrameworkVueCli) :
    ¬ (f = T.NodeProjectFrameworkHexo ∨ f = T.NodeProjectFrameworkVitepress ∨
      f = T.NodeProjectFrameworkAstro) := by
  simp only [nodejs.staticFrameworks, List.nodup_cons, List.mem_cons, List.mem_singleton,
    not_or, List.not_mem_nil, not_false_eq_true, List.nodup_nil, and_true] at hd
  obtain ⟨⟨_, _, _, h15, h16, h17⟩, ⟨_, _, h25, h26, h27⟩, ⟨_, h35, h36, h37⟩,
    ⟨h45, h46, h47⟩, _⟩ := hd
  rcases hf with e | e | e | e <;> subst e <;> simp [*]

/-- C16: with the seven static-output constants pairwise different, for every
metadata map the Node.js `GenerateDockerfile` returns the two-stage text (build
stage, then `FROM nginx:alpine`, no start instruction) exactly when `framework`
is one of vite, umi, create-react-app, vue-cli, hexo, vitepress, astro.  Vite,
umi, create-react-app and vue-cli get the single-page server block with the
`try_files` fallback and copy from `dist`, `dist`, `build`, `dist`; hexo,
vitepress and astro get the multi-page block and copy from `public`,
`docs/.vitepress/dist`, `dist`.  Every other framework gets the single-stage
text that starts with `FROM node:<nodeVersion>` and `ENV PORT=8080`. -/
theorem C16_node_static_or_server (T : NodeTypes)
    (hd : (nodejs.staticFrameworks T).Nodup) (m : PlanMeta) :
    (m.get "framework" = T.NodeProjectFrameworkVite →
        nodejs.GenerateDockerfile T m = Except.ok (nodeSinglePageText (m.get "nodeVersion")
          (nodejs.installCmd T m) (nodejs.buildCmd T m) "dist")) ∧
      (m.get "framework" = T.NodeProjectFrameworkUmi →
        nodejs.GenerateDockerfile T m = Except.ok (nodeSinglePageText (m.get "nodeVersion")
          (nodejs.installCmd T m) (nodejs.buildCmd T m) "dist")) ∧
      (m.get "framework" = T.NodeProjectFrameworkCreateReactApp →
        nodejs.GenerateDockerfile T m = Except.ok (nodeSinglePageText (m.get "nodeVersion")
          (nodejs.installCmd T m) (nodejs.buildCmd T m) "build")) ∧
      (m.get "framework" = T.NodeProjectFrameworkVueCli →
        nodejs.GenerateDockerfile T m = Except.ok (nodeSinglePageText (m.get "nodeVersion")
          (nodejs.installCmd T m) (nodejs.buildCmd T m) "dist")) ∧
      (m.get "framework" = T.NodeProjectFrameworkHexo →
        nodejs.GenerateDockerfile T m = Except.ok (nodeMultiPageText (m.get "nodeVersion")
          (nodejs.installCmd T m) (nodejs.buildCmd T m) "public")) ∧
      (m.get "framework" = T.NodeProjectFrameworkVitepress →
        nodejs.GenerateDockerfile T m = Except.ok (nodeMultiPageText (m.get "nodeVersion")
          (nodejs.installCmd T m) (nodejs.buildCmd T m) "docs/.vitepress/dist")) ∧
      (m.get "framework" = T.NodeProjectFrameworkAstro →
        nodejs.GenerateDockerfile T m = Except.ok (nodeMultiPageText (m.get "nodeVersion")
          (nodejs.installCmd T m) (nodejs.buildCmd T m) "dist")) ∧
      (m.get "framework" ∉ nodejs.staticFrameworks T →
        ∃ puppeteerCmd startCmd, nodejs.GenerateDockerfile T m =
          Except.ok (nodeServerText (m.get "nodeVersion") (nodejs.installCmd T m)
            (nodejs.buildCmd T m) puppeteerCmd startCmd)) ∧
      ((∃ dir, nodejs.GenerateDockerfile T m = Except.ok (nodeSinglePageText
            (m.get "nodeVersion") (nodejs.installCmd T m) (nodejs.buildCmd T m) dir) ∨
          nodejs.GenerateDockerfile T m = Except.ok (nodeMultiPageText
            (m.get "nodeVersion") (nodejs.installCmd T m) (nodejs.buildCmd T m) dir)) ↔
        m.get "framework" ∈ nodejs.staticFrameworks T) := by
  have hv := defaultStaticOutputDirs_values T hd
  have hserver : m.get "framework" ∉ nodejs.staticFrameworks T →
      ∃ puppeteerCmd startCmd, nodejs.GenerateDockerfile T m =
        Except.ok (nodeServerText (m.get "nodeVersion") (nodejs.installCmd T m)
          (nodejs.buildCmd T m) puppeteerCmd startCmd) := by
    intro hf
    obtain ⟨rest, hrest⟩ := startCmd_begins_with_CMD T m
    rw [GenerateDockerfile_dynamic T m hf rest hrest]
    by_cases hp : m.get "needPuppeteer" = "true"
    · exact ⟨_, _, by rw [if_pos hp]⟩
    · exact ⟨_, _, by rw [if_neg hp]⟩
  have hsingle : ∀ dir, (m.get "framework" = T.NodeProjectFrameworkVite ∨
        m.get "framework" = T.NodeProjectFrameworkUmi ∨
        m.get "framework" = T.NodeProjectFrameworkCreateReactApp ∨
        m.get "framework" = T.NodeProjectFrameworkVueCli) →
      nodejs.defaultStaticOutputDirs T (m.get "framework") = dir →
      nodejs.GenerateDockerfile T m = Except.ok (nodeSinglePageText (m.get "nodeVersion")
        (nodejs.installCmd T m) (nodejs.buildCmd T m) dir) := by
    intro dir hf hdir
    have hmem : m.get "framework" ∈ nodejs.staticFrameworks T := by
      rcases hf with e | e | e | e <;> rw [e] <;> simp [nodejs.staticFrameworks]
    rw [GenerateDockerfile_static T m hd hmem,
      if_neg (static_single_page_distinct T hd _ hf), hdir]
  have hmulti : ∀ dir, (m.get "framework" = T.NodeProjectFrameworkHexo ∨
        m.get "framework" = T.NodeProjectFrameworkVitepress ∨
        m.get "framework" = T.NodeProjectFrameworkAstro) →
      nodejs.defaultStaticOutputDirs T (m.get "framework") = dir →
      nodejs.GenerateDockerfile T m = Except.ok (nodeMultiPageText (m.get "nodeVersion")
        (nodejs.installCmd T m) (nodejs.buildCmd T m) dir) := by
    intro dir hf hdir
    have hmem : m.get "framework" ∈ nodejs.staticFrameworks T := by
      rcases hf with e | e | e <;> rw [e] <;> simp [nodejs.staticFrameworks]
    rw [GenerateDockerfile_static T m hd hmem, if_pos hf, hdir]
  refine ⟨?_, ?_, ?_, ?_, ?_, ?_, ?_, hserver, ?_⟩
  · intro e; exact hsingle _ (Or.inl e) (e ▸ hv.1)
  · intro e; exact hsingle _ (Or.inr (Or.inl e)) (e ▸ hv.2.1)
  · intro e; exact hsingle _ (Or.inr (Or.inr (Or.inl e))) (e ▸ hv.2.2.1)
  · intro e; exact hsingle _ (Or.inr (Or.inr (Or.inr e))) (e ▸ hv.2.2.2.1)
  · intro e; exact hmulti _ (Or.inl e) (e ▸ hv.2.2.2.2.1)
  · intro e; exact hmulti _ (Or.inr (Or.inl e)) (e ▸ hv.2.2.2.2.2.1)
  · intro e; exact hmulti _ (Or.inr (Or.inr e)) (e ▸ hv.2.2.2.2.2.2)
  · constructor
    · rintro ⟨dir, h⟩
      by_contra hf
      obtain ⟨p, s, hps⟩ := hserver hf
      rcases h with h | h
      · rw [hps] at h
        exact nodeServerText_ne_nodeSinglePageText _ _ _ _ _ _ _ _ (Except.ok.inj h)
      · rw [hps] at h
        exact nodeServerText_ne_nodeMultiPageText _ _ _ _ _ _ _ _ (Except.ok.inj h)
    · intro hmem
      by_cases hc : m.get "framework" = T.NodeProjectFrameworkHexo ∨
          m.get "framework" = T.NodeProjectFrameworkVitepress ∨
          m.get "framework" = T.NodeProjectFrameworkAstro
      · exact ⟨_, Or.inr (by rw [GenerateDockerfile_static T m hd hmem, if_pos hc])⟩
      · exact ⟨_, Or.inl (by rw [GenerateDockerfile_static T m hd hmem, if_neg hc])⟩

theorem C16_node_static_or_server_witness :
    nodejs.GenerateDockerfile sampleNodeTypes
        (PlanMeta.ofList [("packageManager", "npm"), ("framework", "hexo"),
          ("buildCommand", "build"), ("nodeVersion", "18")]) =
      Except.ok (nodeMultiPageText "18" "RUN npm install" "RUN npm run build" "public") :=
  (C16_node_static_or_server sampleNodeTypes (by decide)
    (PlanMeta.ofList [("packageManager", "npm"), ("framework", "hexo"),
      ("buildCommand", "build"), ("nodeVersion", "18")])).2.2.2.2.1 rfl


/-! ## Invariants of the metadata assembler -/

theorem Fs.ofFiles_readableExists (files : List (String × String)) :
    (Fs.ofFiles files).ReadableExists := by
  intro p content h
  simp only [Fs.ofFiles, Option.map_eq_some'] at h
  obtain ⟨f, hf, _⟩ := h
  have hm := List.mem_of_find?_eq_some hf
  have hp := List.find?_some hf
  simp only [Fs.ofFiles, List.any_eq_true]
  exact ⟨f, hm, hp⟩

theorem matchAssignAt_group (name s : List Char) (m : List Char × List Char)
    (h : matchAssignAt name s = some m) :
    m.2 = s.takeWhile isWordChar ∧ s.takeWhile isWordChar ≠ [] := by
  unfold matchAssignAt at h
  simp only at h
  by_cases hw : (List.takeWhile isWordChar s).isEmpty = true
  · rw [if_pos hw] at h; cases h
  · rw [if_neg hw] at h
    have hne : List.takeWhile isWordChar s ≠ [] := by
      intro e; rw [e] at hw; exact hw rfl
    refine ⟨?_, hne⟩
    split at h
    · cases h
    · split_ifs at h
      split at h
      · cases h
      · split_ifs at h
        cases h
        rfl

theorem findAssignChars_shape (name s : List Char) :
    findAssignChars name s = [] ∨
      ∃ whole w, findAssignChars name s = [String.mk whole, String.mk w] ∧ w ≠ [] ∧
        ∀ c ∈ w, isWordChar c = true := by
  induction s with
  | nil => exact Or.inl rfl
  | cons c cs ih =>
    unfold findAssignChars
    cases hm : matchAssignAt name (c :: cs) with
    | none => exact ih
    | some m =>
      obtain ⟨h2, hne⟩ := matchAssignAt_group name (c :: cs) m hm
      refine Or.inr ⟨m.1, m.2, rfl, h2 ▸ hne, ?_⟩
      intro x hx
      rw [h2] at hx
      exact List.mem_takeWhile_imp hx

theorem frameworkRef_flask_or_fastapi (fs : Fs)
    (h : frameworkRef fs = PythonFrameworkFlask ∨ frameworkRef fs = PythonFrameworkFastapi) :
    fs.HasFile "manage.py" = false := by
  unfold frameworkRef at h
  cases hR : fs.ReadFile "requirements.txt" with
  | none => rw [hR] at h; simp at h
  | some req =>
    rw [hR] at h
    simp only at h
    cases hm : fs.HasFile "manage.py" with
    | false => rfl
    | true =>
      rw [hm] at h
      simp only [if_true] at h
      split_ifs at h <;> simp at h

theorem wsgiRef_nonempty_readable (fs : Fs) (h : wsgiRef fs ≠ "") :
    ∃ req, fs.ReadFile "requirements.txt" = some req := by
  cases hR : fs.ReadFile "requirements.txt" with
  | some req => exact ⟨req, rfl⟩
  | none =>
    exfalso
    apply h
    simp [wsgiRef, frameworkRef, hR]

theorem policyRef_of_wsgiRef (fs : Fs) (hre : fs.ReadableExists) (h : wsgiRef fs ≠ "") :
    policyRef fs = "requirements.txt" := by
  obtain ⟨req, hreq⟩ := wsgiRef_nonempty_readable fs h
  have := hre _ _ hreq
  simp [policyRef, firstExisting_three, this]


theorem policyRef_three (fs : Fs) :
    policyRef fs = "requirements.txt" ∨ policyRef fs = "Pipfile" ∨
      policyRef fs = "pyproject.toml" := by
  rw [policyRef, firstExisting_three]
  split_ifs <;> simp

theorem installTable_reachable (fs : Fs) (hre : fs.ReadableExists) :
    installTable (policyRef fs) (wsgiRef fs) (frameworkRef fs) =
        "pip install -r requirements.txt && pip install gunicorn" ∧ wsgiRef fs ≠ "" ∨
      installTable (policyRef fs) (wsgiRef fs) (frameworkRef fs) =
        "pip install -r requirements.txt && pip install uvicorn" ∧ wsgiRef fs = "" ∧
        frameworkRef fs = PythonFrameworkFastapi ∨
      installTable (policyRef fs) (wsgiRef fs) (frameworkRef fs) =
        "pip install -r requirements.txt" ∧ wsgiRef fs = "" ∨
      installTable (policyRef fs) (wsgiRef fs) (frameworkRef fs) = "pipenv install" ∧
        wsgiRef fs = "" ∨
      installTable (policyRef fs) (wsgiRef fs) (frameworkRef fs) = "poetry install" ∧
        wsgiRef fs = "" := by
  by_cases hw : wsgiRef fs = ""
  · rcases policyRef_three fs with hp | hp | hp
    · by_cases hf : frameworkRef fs = PythonFrameworkFastapi
      · right; left
        simp [installTable, hp, hw, hf]
      · right; right; left
        simp [installTable, hp, hw, hf]
    · right; right; right; left
      simp [installTable, hp, hw]
    · right; right; right; right
      simp [installTable, hp, hw]
  · left
    have hp := policyRef_of_wsgiRef fs hre hw
    simp [installTable, hp, hw]

/-- C18: in a filesystem in which a readable file also exists, a non-empty
result of `DetermineWsgi` implies that `DetermineDependencyPolicy` is
`requirements.txt`; hence the install command recorded by `GetMeta` is one of
`pip install -r requirements.txt && pip install gunicorn`,
`pip install -r requirements.txt && pip install uvicorn`,
`pip install -r requirements.txt`, `pipenv install`, `poetry install`, and is
never one of `pipenv install && pipenv install gunicorn`,
`poetry install && poetry install gunicorn`, `pip install gunicorn`,
`echo "skip install"`. -/
theorem C18_install_command_range (name : PythonFramework → String) (fs : Fs)
    (hre : fs.ReadableExists) :
    ((DetermineWsgi (freshContext fs)).1 ≠ "" →
        (DetermineDependencyPolicy (freshContext fs)).1 = "requirements.txt") ∧
      ∃ cmd, GetMeta name ⟨fs⟩ "install" = some cmd ∧
        (cmd = "pip install -r requirements.txt && pip install gunicorn" ∨
          cmd = "pip install -r requirements.txt && pip install uvicorn" ∨
          cmd = "pip install -r requirements.txt" ∨
          cmd = "pipenv install" ∨
          cmd = "poetry install") ∧
        cmd ≠ "pipenv install && pipenv install gunicorn" ∧
        cmd ≠ "poetry install && poetry install gunicorn" ∧
        cmd ≠ "pip install gunicorn" ∧
        cmd ≠ "echo \"skip install\"" := by
  have hc := coherent_fresh fs
  refine ⟨?_, ?_⟩
  · rw [(DetermineWsgi_coherent fs _ hc).1, (DetermineDependencyPolicy_coherent fs _ hc).1]
    exact policyRef_of_wsgiRef fs hre
  · refine ⟨_, GetMeta_install name fs, ?_⟩
    rcases installTable_reachable fs hre with h | h | h | h | h <;> rw [h.1] <;>
      refine ⟨by simp, by decide, by decide, by decide, by decide⟩

theorem C18_install_command_range_witness :
    (DetermineWsgi (freshContext scenarioA)).1 ≠ "" ∧
      (DetermineDependencyPolicy (freshContext scenarioA)).1 = "requirements.txt" :=
  ⟨by decide,
    (C18_install_command_range (fun _ => "") scenarioA (Fs.ofFiles_readableExists _)).1
      (by decide)⟩


theorem not_uvicorn_start (lit rest : String) (c : Char) (l : List Char)
    (hl : lit.data = c :: l) (hc : c ≠ 'u') : ¬ "uvicorn ".data <+: (lit ++ rest).data := by
  rintro ⟨t, ht⟩
  rw [String.data_append, hl] at ht
  change ('u' :: _) = (c :: _) at ht
  injection ht with h _
  exact hc h.symm

/-- C19: in a filesystem in which a readable file also exists, whenever the
start command recorded by `GetMeta` begins with `uvicorn `, the install command
of the same call is `pip install -r requirements.txt && pip install gunicorn`,
which does not mention uvicorn; and whenever the install command mentions
uvicorn, the start command is `python <entry>` and does not begin with
`uvicorn `. -/
theorem C19_uvicorn_start_without_install (name : PythonFramework → String) (fs : Fs)
    (hre : fs.ReadableExists) :
    (∀ start, GetMeta name ⟨fs⟩ "start" = some start → "uvicorn ".data <+: start.data →
        GetMeta name ⟨fs⟩ "install" =
            some "pip install -r requirements.txt && pip install gunicorn" ∧
          stringsContains "pip install -r requirements.txt && pip install gunicorn"
            "uvicorn" = false) ∧
      (∀ install, GetMeta name ⟨fs⟩ "install" = some install →
        stringsContains install "uvicorn" = true →
        GetMeta name ⟨fs⟩ "start" =
            some ("python " ++ (DetermineEntry (freshContext fs)).1) ∧
          ¬ "uvicorn ".data <+: ("python " ++ (DetermineEntry (freshContext fs)).1).data) := by
  have he := (DetermineEntry_coherent fs _ (coherent_fresh fs)).1
  refine ⟨?_, ?_⟩
  · intro start hs hpre
    rw [GetMeta_start] at hs
    have hs2 := Option.some.inj hs
    refine ⟨?_, by decide⟩
    rw [GetMeta_install]
    by_cases hw : wsgiRef fs = ""
    · exfalso
      rw [← hs2] at hpre
      simp only [startTable, hw, ne_eq, not_true_eq_false, if_false] at hpre
      exact not_uvicorn_start "python " _ 'p' _ rfl (by decide) hpre
    · by_cases hf : frameworkRef fs = PythonFrameworkFastapi
      · have hp := policyRef_of_wsgiRef fs hre hw
        simp [installTable, hp, hw]
      · exfalso
        rw [← hs2] at hpre
        simp only [startTable, hw, hf, ne_eq, not_false_eq_true, if_true, if_false] at hpre
        exact not_uvicorn_start "gunicorn --bind :8080 " _ 'g' _ rfl (by decide) hpre
  · intro install hi hcon
    rw [GetMeta_install] at hi
    have hi2 := Option.some.inj hi
    rw [he]
    refine ⟨?_, not_uvicorn_start "python " _ 'p' _ rfl (by decide)⟩
    rw [GetMeta_start]
    have hw : wsgiRef fs = "" := by
      rcases installTable_reachable fs hre with h | h | h | h | h
      · rw [← hi2, h.1] at hcon
        exact absurd hcon (by decide)
      · exact h.2.1
      · exact h.2
      · exact h.2
      · exact h.2
    simp [startTable, hw]

theorem C19_uvicorn_start_without_install_witness :
    GetMeta (fun _ => "") ⟨fastapiProject⟩ "start" =
        some "uvicorn main:app --host 0.0.0.0 --port 8080" ∧
      GetMeta (fun _ => "") ⟨fastapiProject⟩ "install" =
        some "pip install -r requirements.txt && pip install gunicorn" :=
  ⟨by decide,
    ((C19_uvicorn_start_without_install (fun _ => "") fastapiProject
      (Fs.ofFiles_readableExists _)).1 "uvicorn main:app --host 0.0.0.0 --port 8080"
      (by decide) (( List.isPrefixOf_iff_prefix).1 (by decide))).1⟩


theorem entryRef_without_manage (fs : Fs) (hm : fs.HasFile "manage.py" = false) :
    entryRef fs = "main.py" ∨ entryRef fs = "app.py" := by
  rw [entryRef, firstExisting_three, hm]
  by_cases h1 : fs.HasFile "main.py" = true
  · simp [h1]
  · by_cases h2 : fs.HasFile "app.py" = true
    · simp [h1, h2]
    · simp [h1, h2]

theorem wsgiEntryRef_shape (name : String) (fs : Fs)
    (he : entryRef fs = "main.py" ∨ entryRef fs = "app.py") :
    wsgiEntryRef name fs = "" ∨
      ∃ ident : List Char, ident ≠ [] ∧ (∀ c ∈ ident, isWordChar c = true) ∧
        (wsgiEntryRef name fs = "main:" ++ String.mk ident ∨
          wsgiEntryRef name fs = "app:" ++ String.mk ident) := by
  unfold wsgiEntryRef
  cases hR : fs.ReadFile (entryRef fs) with
  | none => exact Or.inl rfl
  | some content =>
    simp only
    rcases findAssignChars_shape name.data content.data with h | ⟨whole, w, h, hne, hw⟩
    · left
      simp [FindStringSubmatch, h]
    · right
      refine ⟨w, hne, hw, ?_⟩
      have hlen : (FindStringSubmatch name content).length > 1 := by
        simp [FindStringSubmatch, h]
      have hget : (FindStringSubmatch name content).getD 1 "" = String.mk w := by
        simp [FindStringSubmatch, h]
      rw [if_pos hlen, hget]
      rcases he with e | e
      · left
        rw [e]
        rfl
      · right
        rw [e]
        rfl

/-- C20: if `DetermineFramework` returns Flask or FastAPI, then `manage.py` does
not exist, `DetermineEntry` in the same context returns `main.py` or `app.py`
and never `manage.py`, and the reference returned by `DetermineWsgi` is either
empty or `main:<identifier>` or `app:<identifier>` for a non-empty identifier
made of word characters only. -/
theorem C20_flask_fastapi_reference_shape (fs : Fs)
    (hfw : (DetermineFramework (freshContext fs)).1 = PythonFrameworkFlask ∨
      (DetermineFramework (freshContext fs)).1 = PythonFrameworkFastapi) :
    fs.HasFile "manage.py" = false ∧
      ((DetermineEntry (DetermineFramework (freshContext fs)).2).1 = "main.py" ∨
        (DetermineEntry (DetermineFramework (freshContext fs)).2).1 = "app.py") ∧
      (DetermineEntry (DetermineFramework (freshContext fs)).2).1 ≠ "manage.py" ∧
      ((DetermineWsgi (freshContext fs)).1 = "" ∨
        ∃ ident : List Char, ident ≠ [] ∧ (∀ c ∈ ident, isWordChar c = true) ∧
          ((DetermineWsgi (freshContext fs)).1 = "main:" ++ String.mk ident ∨
            (DetermineWsgi (freshContext fs)).1 = "app:" ++ String.mk ident)) := by
  have hc := coherent_fresh fs
  obtain ⟨hf, hc1⟩ := DetermineFramework_coherent fs _ hc
  rw [hf] at hfw
  have hm := frameworkRef_flask_or_fastapi fs hfw
  have he := entryRef_without_manage fs hm
  rw [(DetermineEntry_coherent fs _ hc1).1, (DetermineWsgi_coherent fs _ hc).1]
  refine ⟨hm, he, ?_, ?_⟩
  · rcases he with e | e <;> rw [e] <;> decide
  · rcases hfw with h | h
    · have : wsgiRef fs = wsgiEntryRef "Flask" fs := by simp [wsgiRef, h]
      rw [this]
      exact wsgiEntryRef_shape "Flask" fs he
    · have : wsgiRef fs = wsgiEntryRef "FastAPI" fs := by simp [wsgiRef, h]
      rw [this]
      exact wsgiEntryRef_shape "FastAPI" fs he

theorem C20_flask_fastapi_reference_shape_witness :
    fastapiProject.HasFile "manage.py" = false ∧
      (DetermineWsgi (freshContext fastapiProject)).1 = "main:app" :=
  ⟨(C20_flask_fastapi_reference_shape fastapiProject (Or.inr (by decide))).1, by decide⟩

end Zbpack
